import Mathlib

set_option linter.unreachableTactic false
set_option linter.unusedTactic false

/-!
Verification of the trust-region minimization core of a nonlinear
least-squares solver (`internal/ceres/trust_region_minimizer.cc`).

The embedding models C++ `double` arithmetic by exact rationals.  The two
genuinely irrational operations of the source — Euclidean vector norm
(`Eigen .norm()`) and square root (`sqrt` in the Jacobi-scaling formula) —
are supplied by the environment as oracle functions `Env.norm` and
`Env.sqrtQ`; every other numeric step of the source is computed exactly.
`std::numeric_limits<double>::max()` is the exact rational value of
`DBL_MAX`.  External collaborators (evaluator, trust-region strategy, step
evaluator, iteration callbacks, inner-iteration minimizer, line search,
wall clock) are modelled as deterministic oracle functions in `Env`,
matching the interfaces the minimizer calls.  Wall-clock readings that the
source only accumulates into timing statistics that never influence
control flow (inner-iteration and line-search timers) are elided; the
readings that reach recorded summary fields or the time-budget check are
kept, consumed from the `Env.clock` stream one tick at a time.
-/

namespace CeresTR

/-- Dense vector of doubles, modelled as a list of rationals. -/
abbrev Vec := List ℚ

/-- Jacobian matrix, modelled as its list of rows. -/
abbrev Mat := List (List ℚ)

/-- Exact value of `std::numeric_limits<double>::max()`. -/
def DBL_MAX : ℚ := 2 ^ 1024 - 2 ^ 971

/-- Componentwise sum (Eigen `a + b`). -/
def vadd (a b : Vec) : Vec := List.zipWith (· + ·) a b

/-- Componentwise difference (Eigen `a - b`). -/
def vsub (a b : Vec) : Vec := List.zipWith (· - ·) a b

/-- Componentwise (Hadamard) product (Eigen `a.array() * b.array()`). -/
def hadamard (a b : Vec) : Vec := List.zipWith (· * ·) a b

/-- Scalar multiple of a vector. -/
def smul (c : ℚ) (a : Vec) : Vec := a.map (fun q => c * q)

/-- Negation of a vector (Eigen `-a`). -/
def negV (a : Vec) : Vec := a.map (fun q => -q)

/-- Dot product (Eigen `a.dot(b)`). -/
def dot (a b : Vec) : ℚ := (List.zipWith (· * ·) a b).sum

/-- Max-norm (Eigen `lpNorm<Eigen::Infinity>()`), exact in ℚ. -/
def linfNorm (a : Vec) : ℚ := a.foldl (fun m q => max m |q|) 0

/-- Number of columns of the Jacobian (`jacobian->num_cols()`). -/
def numCols (J : Mat) : ℕ := (J.headD []).length

/-- Matrix–vector product, the semantics of
`jacobian->RightMultiply(x, y)` applied to a zeroed `y`. -/
def matVec (J : Mat) (v : Vec) : Vec := J.map (fun row => dot row v)

/-- `jacobian->ScaleColumns(scale)`: column `j` is multiplied by
`scale[j]`. -/
def scaleColumns (J : Mat) (scale : Vec) : Mat :=
  J.map (fun row => List.zipWith (· * ·) row scale)

/-- `jacobian->SquaredColumnNorm(out)`: per-column sums of squares,
one value for each of the `num_cols()` columns. -/
def colSquaredNorms (J : Mat) : Vec :=
  (List.range (numCols J)).map (fun j => (J.map (fun row => (row.getD j 0) ^ 2)).sum)

/-- The model cost change the source computes for a step `s`:
`-(J·s)·(residuals + (J·s)/2)` (trust_region_minimizer.cc lines 429-433). -/
def modelCostChange (J : Mat) (step residuals : Vec) : ℚ :=
  - dot (matVec J step) (vadd residuals (smul (1 / 2) (matVec J step)))

/-- `TerminationType` values the minimizer can set.  `userSuccess` is the
tag for a stop requested by an iteration callback. -/
inductive TerminationType where
  | noConvergence
  | convergence
  | failure
  | userSuccess
deriving DecidableEq, Repr

/-- `LinearSolverTerminationType` as reported by
`TrustRegionStrategy::ComputeStep`. -/
inductive LinTerm where
  | success
  | noConvergence
  | solverFailure
  | fatalError
deriving DecidableEq, Repr

/-- The result of one `TrustRegionStrategy::ComputeStep` call: the
summary's termination type and iteration count, and the step written into
`trust_region_step_`. -/
structure StratOutcome where
  termination : LinTerm
  step : Vec
  num_iterations : ℕ
deriving DecidableEq, Repr

/-- The calls the minimizer makes on its trust-region strategy, recorded
in order; a deterministic strategy's replies are a function of this
history. -/
inductive StratEvent where
  | computeStep
  | accepted (relative_decrease : ℚ)
  | rejected (relative_decrease : ℚ)
  | invalid
deriving DecidableEq, Repr

/-- A successful `Evaluator::Evaluate` with residuals, gradient and
Jacobian requested. -/
structure EvalOut where
  cost : ℚ
  residuals : Vec
  gradient : Vec
  jacobian : Mat
deriving DecidableEq, Repr

/-- `IterationSummary`: the per-iteration record the loop appends to
`solver_summary->iterations`.  Fields default to zero / false, as the
value-initialized C++ struct does. -/
structure IterationSummary where
  iteration : ℕ := 0
  step_is_valid : Bool := false
  step_is_successful : Bool := false
  cost : ℚ := 0
  cost_change : ℚ := 0
  gradient_max_norm : ℚ := 0
  gradient_norm : ℚ := 0
  step_norm : ℚ := 0
  relative_decrease : ℚ := 0
  eta : ℚ := 0
  trust_region_radius : ℚ := 0
  linear_solver_iterations : ℕ := 0
  step_solver_time_in_seconds : ℚ := 0
  iteration_time_in_seconds : ℚ := 0
  cumulative_time_in_seconds : ℚ := 0
deriving DecidableEq, Repr

/-- A freshly value-initialized `IterationSummary()`. -/
def freshSummary : IterationSummary := {}

/-- The subset of `Minimizer::Options` the trust-region loop reads. -/
structure Options where
  max_num_iterations : ℕ
  max_solver_time_in_seconds : ℚ
  gradient_tolerance : ℚ
  parameter_tolerance : ℚ
  function_tolerance : ℚ
  min_relative_decrease : ℚ
  min_trust_region_radius : ℚ
  max_num_consecutive_invalid_steps : ℕ
  inner_iteration_tolerance : ℚ
  eta : ℚ
  is_constrained : Bool
  jacobi_scaling : Bool
  inner_iterations_enabled : Bool
  use_nonmonotonic_steps : Bool
deriving DecidableEq, Repr

/-- The external collaborators of the minimizer, as deterministic
oracles.

* `plus`, `evalFull`, `evalCost` — the `Evaluator` (`Plus`, and
  `Evaluate` with / without derivatives requested); `none` is a failed
  call.
* `strat`, `radius` — the `TrustRegionStrategy`, replying as a function
  of its call history.
* `seQuality` — the `StepEvaluator`'s `StepQuality`, as a function of the
  cost the evaluator was constructed with, the history of
  `StepAccepted(cost, model_cost_change)` calls, the candidate cost and
  the model cost change.
* `callback` — `RunCallbacks`, `false` requests a stop.  Modelled from
  the spec: `minimizer.cc` is not part of the sources; the spec states a
  callback-requested stop ends the loop without being treated as an
  error, which the loop records as `userSuccess`.
* `clock` — successive `WallTimeInSeconds()` readings.
* `innerPoint` — the point the `inner_iteration_minimizer` reaches from a
  given start.
* `lineSearch` — the Armijo line search of `DoLineSearch`: `some α` is a
  successful search with `optimal_step_size = α`.
* `norm`, `sqrtQ` — oracles for the irrational `.norm()` and `sqrt`.
* `fixed_cost`, `preprocessor_time_in_seconds` — summary fields set
  before `Minimize` runs.
* `num_effective_parameters` — `Evaluator::NumEffectiveParameters()`. -/
structure Env where
  plus : Vec → Vec → Option Vec
  evalFull : Vec → Option EvalOut
  evalCost : Vec → Option ℚ
  strat : List StratEvent → Mat → Vec → StratOutcome
  radius : List StratEvent → ℚ
  seQuality : ℚ → List (ℚ × ℚ) → ℚ → ℚ → ℚ
  callback : List IterationSummary → Bool
  clock : ℕ → ℚ
  innerPoint : Vec → Vec
  lineSearch : Vec → Vec → ℚ → Vec → Option ℚ
  norm : Vec → ℚ
  sqrtQ : ℚ → ℚ
  fixed_cost : ℚ
  preprocessor_time_in_seconds : ℚ
  num_effective_parameters : ℕ

/-- The member state of `TrustRegionMinimizer` together with the parts of
`Solver::Summary` the loop writes and the local variables of `Minimize`
that live across iterations (`minimum_cost`, the caller's parameter
buffer).  `ticks` counts consumed wall-clock readings.  `acceptedLog` and
`trialFailures` are specification-only instrumentation: the log records
the (projected) initial point and every accepted iterate with the cost
observed for it, and the counter counts trial evaluations that failed;
neither influences any computed value. -/
structure MinState where
  x : Vec
  x_norm : ℚ
  cost : ℚ
  residuals : Vec
  gradient : Vec
  jacobian : Mat
  scale : Vec
  negative_gradient : Vec
  projected_gradient_step : Vec
  trust_region_step : Vec
  delta : Vec
  x_plus_delta : Vec
  model_residuals : Vec
  model_cost_change : ℚ
  num_consecutive_invalid_steps : ℕ
  inner_iterations_are_enabled : Bool
  inner_iterations_were_useful : Bool
  minimum_cost : ℚ
  parameters : Vec
  iteration_summary : IterationSummary
  iterations : List IterationSummary
  num_successful_steps : ℕ
  num_unsuccessful_steps : ℕ
  num_inner_iteration_steps : ℕ
  seSeed : ℚ
  seHistory : List (ℚ × ℚ)
  stratEvents : List StratEvent
  termination : TerminationType
  initial_cost : ℚ
  start_time : ℚ
  iteration_start_time : ℚ
  ticks : ℕ
  acceptedLog : List (Vec × ℚ)
  trialFailures : ℕ
deriving DecidableEq, Repr

/-- Consume one `WallTimeInSeconds()` reading. -/
def readClock (env : Env) (s : MinState) : ℚ × MinState :=
  (env.clock s.ticks, { s with ticks := s.ticks + 1 })

/-- `TrustRegionMinimizer::Init`: capture options and dimensions, zero
the counters, size the working vectors (modelled as zero vectors of the
right length), set `scale_` to all ones, record the caller's buffer. -/
def initState (env : Env) (opts : Options) (x0 : Vec) : MinState :=
  { x := x0
    x_norm := env.norm x0
    cost := 0
    residuals := []
    gradient := []
    jacobian := []
    scale := List.replicate env.num_effective_parameters 1
    negative_gradient := []
    projected_gradient_step := []
    trust_region_step := []
    delta := List.replicate env.num_effective_parameters 0
    x_plus_delta := List.replicate x0.length 0
    model_residuals := []
    model_cost_change := 0
    num_consecutive_invalid_steps := 0
    inner_iterations_are_enabled := opts.inner_iterations_enabled
    inner_iterations_were_useful := false
    minimum_cost := 0
    parameters := x0
    iteration_summary := freshSummary
    iterations := []
    num_successful_steps := 0
    num_unsuccessful_steps := 0
    num_inner_iteration_steps := 0
    seSeed := 0
    seHistory := []
    stratEvents := []
    termination := TerminationType.noConvergence
    initial_cost := 0
    start_time := 0
    iteration_start_time := 0
    ticks := 0
    acceptedLog := []
    trialFailures := 0 }

/-- `TrustRegionMinimizer::EvaluateGradientAndJacobian` (lines 286-325):
evaluate cost / residuals / gradient / Jacobian at `x_`, apply Jacobi
scaling (computing the scale vector on iteration 0), and compute the
projected gradient norms.  Returns `false` (with `FAILURE`) exactly when
an evaluator call fails. -/
def evaluateGradientAndJacobian (env : Env) (opts : Options) (s : MinState) :
    MinState × Bool :=
  match env.evalFull s.x with
  | none => ({ s with termination := TerminationType.failure }, false)
  | some e =>
    let s := { s with cost := e.cost, residuals := e.residuals,
                      gradient := e.gradient, jacobian := e.jacobian }
    let s := { s with iteration_summary :=
        { s.iteration_summary with cost := s.cost + env.fixed_cost } }
    let s :=
      if opts.jacobi_scaling = true then
        let s :=
          if s.iteration_summary.iteration = 0 then
            { s with scale :=
                (colSquaredNorms s.jacobian).map (fun q => 1 / (1 + env.sqrtQ q))
                  ++ s.scale.drop (numCols s.jacobian) }
          else s
        { s with jacobian := scaleColumns s.jacobian s.scale }
      else s
    let s := { s with negative_gradient := negV s.gradient }
    match env.plus s.x s.negative_gradient with
    | none => ({ s with termination := TerminationType.failure }, false)
    | some pgs =>
      let s := { s with projected_gradient_step := pgs }
      let s := { s with iteration_summary :=
          { s.iteration_summary with
              gradient_max_norm := linfNorm (vsub s.x pgs),
              gradient_norm := env.norm (vsub s.x pgs) } }
      (s, true)

/-- The tail of `TrustRegionMinimizer::IterationZero` (lines 278-284):
evaluate at the (possibly projected) initial point and record the initial
cost. -/
def iterationZeroEval (env : Env) (opts : Options) (s : MinState) :
    MinState × Bool :=
  match evaluateGradientAndJacobian env opts s with
  | (s, false) => (s, false)
  | (s, true) =>
    ({ s with initial_cost := s.cost + env.fixed_cost }, true)

/-- `TrustRegionMinimizer::IterationZero` (lines 251-284). -/
def iterationZero (env : Env) (opts : Options) (s : MinState) :
    MinState × Bool :=
  let s := { s with iteration_summary :=
      { freshSummary with iteration := 0, eta := opts.eta } }
  if opts.is_constrained = true then
    let s := { s with delta := List.replicate env.num_effective_parameters 0 }
    match env.plus s.x s.delta with
    | none => ({ s with termination := TerminationType.failure }, false)
    | some xpd =>
      let s := { s with x_plus_delta := xpd }
      let s := { s with x := s.x_plus_delta }
      let s := { s with x_norm := env.norm s.x }
      iterationZeroEval env opts s
  else iterationZeroEval env opts s

/-- `TrustRegionMinimizer::ComputeTrustRegionStep` (lines 381-446). -/
def computeTrustRegionStep (env : Env) (_opts : Options) (s : MinState) :
    MinState × Bool :=
  let (t0, s) := readClock env s
  let out := env.strat s.stratEvents s.jacobian s.residuals
  let s := { s with stratEvents := s.stratEvents ++ [StratEvent.computeStep] }
  if out.termination = LinTerm.fatalError then
    ({ s with termination := TerminationType.failure }, false)
  else
    let (t1, s) := readClock env s
    let s := { s with iteration_summary :=
        { s.iteration_summary with
            step_solver_time_in_seconds := t1 - t0,
            linear_solver_iterations := out.num_iterations } }
    if out.termination = LinTerm.solverFailure then
      ({ s with iteration_summary :=
          { s.iteration_summary with step_is_valid := false } }, true)
    else
      let s := { s with trust_region_step := out.step }
      let s := { s with model_residuals := matVec s.jacobian s.trust_region_step }
      let mcc :=
        - dot s.model_residuals
            (vadd s.residuals (smul (1 / 2) s.model_residuals))
      let s := { s with model_cost_change := mcc }
      ({ s with iteration_summary :=
          { s.iteration_summary with
              step_is_valid := decide (0 < s.model_cost_change) } }, true)

/-- `TrustRegionMinimizer::HandleInvalidStep` (lines 448-486). -/
def handleInvalidStep (env : Env) (opts : Options) (s : MinState) :
    MinState × Bool :=
  let s := { s with num_consecutive_invalid_steps :=
      s.num_consecutive_invalid_steps + 1 }
  if opts.max_num_consecutive_invalid_steps ≤ s.num_consecutive_invalid_steps then
    ({ s with termination := TerminationType.failure }, false)
  else
    let s := { s with num_unsuccessful_steps := s.num_unsuccessful_steps + 1 }
    let s := { s with stratEvents := s.stratEvents ++ [StratEvent.invalid] }
    let back := s.iterations.getLastD freshSummary
    ({ s with iteration_summary :=
        { s.iteration_summary with
            cost := s.cost + env.fixed_cost,
            cost_change := 0,
            gradient_max_norm := back.gradient_max_norm,
            gradient_norm := back.gradient_norm,
            step_norm := 0,
            relative_decrease := 0,
            eta := opts.eta } }, true)

/-- `TrustRegionMinimizer::DoInnerIterations` (lines 488-510): run the
inner-iteration minimizer from `xv`; if the cost evaluation at its result
fails the cost is `DBL_MAX` and `xv` is kept, otherwise the reached point
replaces `xv` and its cost is returned. -/
def doInnerIterations (env : Env) (s : MinState) (xv : Vec) :
    ℚ × Vec × MinState :=
  let s := { s with num_inner_iteration_steps := s.num_inner_iteration_steps + 1 }
  let ix := env.innerPoint xv
  match env.evalCost ix with
  | none => (DBL_MAX, xv, s)
  | some c => (c, ix, s)

/-- `TrustRegionMinimizer::DoLineSearch` (lines 512-559), reduced to its
effect on `delta`: a successful search rescales `delta` by the optimal
step size, a failed one leaves it unchanged. -/
def doLineSearch (env : Env) (s : MinState) : MinState :=
  match env.lineSearch s.x s.gradient s.cost s.delta with
  | none => s
  | some stepSize => { s with delta := smul stepSize s.delta }

/-- Lines 96-102 of the loop body: reset the consecutive-invalid
counter, undo the Jacobian column scaling on the solved step, and (for
constrained problems) refine `delta` by line search. -/
def prepareDelta (env : Env) (opts : Options) (s : MinState) : MinState :=
  let s := { s with num_consecutive_invalid_steps := 0 }
  let s := { s with delta := hadamard s.trust_region_step s.scale }
  if opts.is_constrained = true then doLineSearch env s else s

/-- Lines 104-120 of the loop body: compute the trial point and its
cost; a failed retraction or cost evaluation yields `DBL_MAX` ("a step
with infinite cost").  `trialFailures` instruments the failure paths. -/
def evaluateTrialPoint (env : Env) (s : MinState) : ℚ × MinState :=
  match env.plus s.x s.delta with
  | none => (DBL_MAX, { s with trialFailures := s.trialFailures + 1 })
  | some xpd =>
    let s := { s with x_plus_delta := xpd }
    match env.evalCost s.x_plus_delta with
    | none => (DBL_MAX, { s with trialFailures := s.trialFailures + 1 })
    | some c => (c, s)

/-- Lines 122-146 of the loop body: if inner iterations are enabled and
the trial cost is finite, run them from the trial point; on a successful
inner cost evaluation the inner point and cost replace the trial ones,
the model cost change grows by the improvement, and the enable flag is
recomputed from the relative progress. -/
def innerIterationPhase (env : Env) (opts : Options) (new_cost : ℚ)
    (s : MinState) : ℚ × MinState :=
  if new_cost < DBL_MAX ∧ s.inner_iterations_are_enabled = true then
    let r := doInnerIterations env s s.x_plus_delta
    let ic := r.1
    let s := { r.2.2 with x_plus_delta := r.2.1 }
    if ic < DBL_MAX then
      let s := { s with model_cost_change := s.model_cost_change + (new_cost - ic) }
      let s := { s with inner_iterations_were_useful := decide (ic < s.cost) }
      let enabled := decide (opts.inner_iteration_tolerance < 1 - ic / new_cost)
      let s := { s with inner_iterations_are_enabled := enabled }
      (ic, s)
    else (new_cost, s)
  else (new_cost, s)

/-- Lines 96-149 of the loop body: everything between a valid step and
the tolerance checks, ending with `cost_change` and `step_norm` recorded
in the iteration summary. -/
def trialPhase (env : Env) (opts : Options) (s : MinState) : ℚ × MinState :=
  let s := prepareDelta env opts s
  let p := evaluateTrialPoint env s
  let q := innerIterationPhase env opts p.1 p.2
  let new_cost := q.1
  let s := q.2
  let s := { s with iteration_summary :=
      { s.iteration_summary with
          cost_change := s.cost - new_cost,
          step_norm := env.norm (vsub s.x s.x_plus_delta) } }
  (new_cost, s)

/-- The parameter-tolerance threshold of line 152:
`parameter_tolerance * (x_norm_ + parameter_tolerance)`. -/
def stepSizeTolerance (opts : Options) (s : MinState) : ℚ :=
  opts.parameter_tolerance * (s.x_norm + opts.parameter_tolerance)

/-- Lines 179-208 of the loop body: the acceptance decision and its two
outcomes.  An accepted step advances `x_`, re-evaluates derivatives
there, and copies the iterate out to the caller's buffer when its cost is
the best seen. -/
def acceptancePhase (env : Env) (opts : Options) (new_cost : ℚ)
    (s : MinState) : MinState × Bool :=
  let rd := env.seQuality s.seSeed s.seHistory new_cost s.model_cost_change
  let s := { s with iteration_summary :=
      { s.iteration_summary with relative_decrease := rd } }
  let succ : Bool :=
    s.inner_iterations_were_useful || decide (opts.min_relative_decrease < rd)
  let s := { s with iteration_summary :=
      { s.iteration_summary with step_is_successful := succ } }
  if succ = true then
    let s := { s with num_successful_steps := s.num_successful_steps + 1 }
    let s := { s with stratEvents := s.stratEvents ++ [StratEvent.accepted rd] }
    let s := { s with seHistory := s.seHistory ++ [(new_cost, s.model_cost_change)] }
    let s := { s with x := s.x_plus_delta }
    let s := { s with x_norm := env.norm s.x }
    match evaluateGradientAndJacobian env opts s with
    | (s, false) => (s, false)
    | (s, true) =>
      let s := { s with acceptedLog := s.acceptedLog ++ [(s.x, s.cost)] }
      if s.cost < s.minimum_cost then
        ({ s with minimum_cost := s.cost, parameters := s.x }, true)
      else (s, true)
  else
    ({ s with num_unsuccessful_steps := s.num_unsuccessful_steps + 1,
              stratEvents := s.stratEvents ++ [StratEvent.rejected rd],
              iteration_summary :=
                { s.iteration_summary with cost := new_cost + env.fixed_cost } },
     true)

/-- Lines 96-208: the valid-step part of the loop body — trial phase,
then the two pre-acceptance convergence checks (parameter tolerance and
function tolerance, both on the candidate regardless of acceptance), then
the acceptance decision. -/
def afterValidStep (env : Env) (opts : Options) (s : MinState) :
    MinState × Bool :=
  let p := trialPhase env opts s
  let new_cost := p.1
  let s := p.2
  if s.iteration_summary.step_norm ≤ stepSizeTolerance opts s then
    ({ s with termination := TerminationType.convergence }, false)
  else if |s.iteration_summary.cost_change| ≤ opts.function_tolerance * s.cost then
    ({ s with termination := TerminationType.convergence }, false)
  else acceptancePhase env opts new_cost s

/-- Lines 85-89 of the loop body: record the iteration start time and
reset the iteration summary to a fresh one with the next iteration
index. -/
def bodyEntry (env : Env) (s : MinState) : MinState :=
  let (t, s) := readClock env s
  let s := { s with iteration_start_time := t }
  { s with iteration_summary :=
      { freshSummary with iteration :=
          (s.iterations.getLastD freshSummary).iteration + 1 } }

/-- Lines 85-208: one execution of the loop body.  The returned flag is
`true` when control reaches the loop condition again and `false` when
`Minimize` returns. -/
def loopBody (env : Env) (opts : Options) (s : MinState) : MinState × Bool :=
  let s := bodyEntry env s
  match computeTrustRegionStep env opts s with
  | (s, false) => (s, false)
  | (s, true) =>
    if s.iteration_summary.step_is_valid = true then
      afterValidStep env opts s
    else
      handleInvalidStep env opts s

/-- Lines 327-335 of
`FinalizeIterationAndCheckIfMinimizerCanContinue`: record the radius and
timing into the iteration summary and append it to the solve summary. -/
def finalizeBookkeeping (env : Env) (s : MinState) : MinState :=
  let s := { s with iteration_summary :=
      { s.iteration_summary with trust_region_radius := env.radius s.stratEvents } }
  let (t1, s) := readClock env s
  let s := { s with iteration_summary :=
      { s.iteration_summary with
          iteration_time_in_seconds := t1 - s.iteration_start_time } }
  let (t2, s) := readClock env s
  let s := { s with iteration_summary :=
      { s.iteration_summary with
          cumulative_time_in_seconds :=
            t2 - s.start_time + env.preprocessor_time_in_seconds } }
  { s with iterations := s.iterations ++ [s.iteration_summary] }

/-- `TrustRegionMinimizer::FinalizeIterationAndCheckIfMinimizerCanContinue`
(lines 327-379). -/
def finalizeIteration (env : Env) (opts : Options) (s : MinState) :
    MinState × Bool :=
  let s := finalizeBookkeeping env s
  if env.callback s.iterations = false then
    ({ s with termination := TerminationType.userSuccess }, false)
  else
    let (t3, s) := readClock env s
    let total := t3 - s.start_time + env.preprocessor_time_in_seconds
    if opts.max_solver_time_in_seconds ≤ total then
      ({ s with termination := TerminationType.noConvergence }, false)
    else if opts.max_num_iterations ≤ s.iteration_summary.iteration then
      ({ s with termination := TerminationType.noConvergence }, false)
    else if (s.iteration_summary.step_is_successful = true ∨
             s.iteration_summary.iteration = 0) ∧
            s.iteration_summary.gradient_max_norm ≤ opts.gradient_tolerance then
      ({ s with termination := TerminationType.convergence }, false)
    else if s.iteration_summary.trust_region_radius <
            opts.min_trust_region_radius then
      ({ s with termination := TerminationType.convergence }, false)
    else (s, true)

/-- The `while` loop of `Minimize` (lines 84-208), driven by fuel; each
unfolding evaluates the loop condition once and, when it holds, runs one
body. -/
def minLoop (env : Env) (opts : Options) : ℕ → MinState → MinState
  | 0, s => s
  | Nat.succ fuel, s =>
    match finalizeIteration env opts s with
    | (s1, false) => s1
    | (s1, true) =>
      match loopBody env opts s1 with
      | (s2, false) => s2
      | (s2, true) => minLoop env opts fuel s2

/-- `TrustRegionMinimizer::Minimize` (lines 63-209).  The fuel
`max_num_iterations + 2` dominates the loop-condition evaluations, since
every body raises the iteration index by one and the condition stops at
`max_num_iterations`. -/
def minimizeEntry (env : Env) (opts : Options) (x0 : Vec) : MinState :=
  let s := initState env opts x0
  let (t, s) := readClock env s
  { s with start_time := t, iteration_start_time := t }

/-- Lines 71-83: copy the projected initial point to the caller's
buffer, build the step evaluator seeded with the initial cost, and start
the best-cost tracker (`minimum_cost = cost_`). -/
def loopEntry (_env : Env) (_opts : Options) (s : MinState) : MinState :=
  let s := { s with parameters := s.x }
  let s := { s with seSeed := s.cost, seHistory := [] }
  { s with minimum_cost := s.cost, acceptedLog := [(s.x, s.cost)] }

def minimize (env : Env) (opts : Options) (x0 : Vec) : MinState :=
  match iterationZero env opts (minimizeEntry env opts x0) with
  | (s, false) => s
  | (s, true) =>
    minLoop env opts (opts.max_num_iterations + 2) (loopEntry env opts s)

/-! ### Helper lemmas -/

lemma dot_replicate_zero_right (a : Vec) (n : ℕ) :
    dot a (List.replicate n 0) = 0 := by
  induction a generalizing n with
  | nil => simp [dot]
  | cons h t ih =>
    cases n with
    | zero => simp [dot]
    | succ m =>
      simp only [List.replicate_succ, dot, List.zipWith_cons_cons, List.sum_cons,
        mul_zero, zero_add]
      exact ih m

lemma dot_replicate_zero_left (a : Vec) (n : ℕ) :
    dot (List.replicate n 0) a = 0 := by
  induction a generalizing n with
  | nil => simp [dot]
  | cons h t ih =>
    cases n with
    | zero => simp [dot]
    | succ m =>
      simp only [List.replicate_succ, dot, List.zipWith_cons_cons, List.sum_cons,
        zero_mul, zero_add]
      exact ih m

lemma matVec_replicate_zero (J : Mat) (n : ℕ) :
    matVec J (List.replicate n 0) = List.replicate J.length 0 := by
  induction J with
  | nil => simp [matVec]
  | cons r t ih =>
    simp [matVec, List.replicate_succ, dot_replicate_zero_right] at ih ⊢

/-- A zero step has model cost change exactly `0`. -/
lemma modelCostChange_zero_step (J : Mat) (r : Vec) (n : ℕ) :
    modelCostChange J (List.replicate n 0) r = 0 := by
  simp [modelCostChange, matVec_replicate_zero, dot_replicate_zero_left]


/-! ### Frame lemmas: fields each pipeline stage leaves untouched -/

@[simp] lemma doLineSearch_x (env : Env) (s : MinState) :
    (doLineSearch env s).x = s.x := by
  unfold doLineSearch
  try dsimp only
  repeat' split
  all_goals rfl

@[simp] lemma doLineSearch_x_norm (env : Env) (s : MinState) :
    (doLineSearch env s).x_norm = s.x_norm := by
  unfold doLineSearch
  try dsimp only
  repeat' split
  all_goals rfl

@[simp] lemma doLineSearch_cost (env : Env) (s : MinState) :
    (doLineSearch env s).cost = s.cost := by
  unfold doLineSearch
  try dsimp only
  repeat' split
  all_goals rfl

@[simp] lemma doLineSearch_residuals (env : Env) (s : MinState) :
    (doLineSearch env s).residuals = s.residuals := by
  unfold doLineSearch
  try dsimp only
  repeat' split
  all_goals rfl

@[simp] lemma doLineSearch_gradient (env : Env) (s : MinState) :
    (doLineSearch env s).gradient = s.gradient := by
  unfold doLineSearch
  try dsimp only
  repeat' split
  all_goals rfl

@[simp] lemma doLineSearch_jacobian (env : Env) (s : MinState) :
    (doLineSearch env s).jacobian = s.jacobian := by
  unfold doLineSearch
  try dsimp only
  repeat' split
  all_goals rfl

@[simp] lemma doLineSearch_scale (env : Env) (s : MinState) :
    (doLineSearch env s).scale = s.scale := by
  unfold doLineSearch
  try dsimp only
  repeat' split
  all_goals rfl

@[simp] lemma doLineSearch_parameters (env : Env) (s : MinState) :
    (doLineSearch env s).parameters = s.parameters := by
  unfold doLineSearch
  try dsimp only
  repeat' split
  all_goals rfl

@[simp] lemma doLineSearch_minimum_cost (env : Env) (s : MinState) :
    (doLineSearch env s).minimum_cost = s.minimum_cost := by
  unfold doLineSearch
  try dsimp only
  repeat' split
  all_goals rfl

@[simp] lemma doLineSearch_acceptedLog (env : Env) (s : MinState) :
    (doLineSearch env s).acceptedLog = s.acceptedLog := by
  unfold doLineSearch
  try dsimp only
  repeat' split
  all_goals rfl

@[simp] lemma doLineSearch_seSeed (env : Env) (s : MinState) :
    (doLineSearch env s).seSeed = s.seSeed := by
  unfold doLineSearch
  try dsimp only
  repeat' split
  all_goals rfl

@[simp] lemma doLineSearch_seHistory (env : Env) (s : MinState) :
    (doLineSearch env s).seHistory = s.seHistory := by
  unfold doLineSearch
  try dsimp only
  repeat' split
  all_goals rfl

@[simp] lemma doLineSearch_stratEvents (env : Env) (s : MinState) :
    (doLineSearch env s).stratEvents = s.stratEvents := by
  unfold doLineSearch
  try dsimp only
  repeat' split
  all_goals rfl

@[simp] lemma doLineSearch_num_successful_steps (env : Env) (s : MinState) :
    (doLineSearch env s).num_successful_steps = s.num_successful_steps := by
  unfold doLineSearch
  try dsimp only
  repeat' split
  all_goals rfl

@[simp] lemma doLineSearch_num_unsuccessful_steps (env : Env) (s : MinState) :
    (doLineSearch env s).num_unsuccessful_steps = s.num_unsuccessful_steps := by
  unfold doLineSearch
  try dsimp only
  repeat' split
  all_goals rfl

@[simp] lemma doLineSearch_termination (env : Env) (s : MinState) :
    (doLineSearch env s).termination = s.termination := by
  unfold doLineSearch
  try dsimp only
  repeat' split
  all_goals rfl

@[simp] lemma doLineSearch_inner_iterations_are_enabled (env : Env) (s : MinState) :
    (doLineSearch env s).inner_iterations_are_enabled = s.inner_iterations_are_enabled := by
  unfold doLineSearch
  try dsimp only
  repeat' split
  all_goals rfl

@[simp] lemma doLineSearch_inner_iterations_were_useful (env : Env) (s : MinState) :
    (doLineSearch env s).inner_iterations_were_useful = s.inner_iterations_were_useful := by
  unfold doLineSearch
  try dsimp only
  repeat' split
  all_goals rfl

@[simp] lemma doLineSearch_num_consecutive_invalid_steps (env : Env) (s : MinState) :
    (doLineSearch env s).num_consecutive_invalid_steps = s.num_consecutive_invalid_steps := by
  unfold doLineSearch
  try dsimp only
  repeat' split
  all_goals rfl

@[simp] lemma doLineSearch_x_plus_delta (env : Env) (s : MinState) :
    (doLineSearch env s).x_plus_delta = s.x_plus_delta := by
  unfold doLineSearch
  try dsimp only
  repeat' split
  all_goals rfl

@[simp] lemma doLineSearch_trust_region_step (env : Env) (s : MinState) :
    (doLineSearch env s).trust_region_step = s.trust_region_step := by
  unfold doLineSearch
  try dsimp only
  repeat' split
  all_goals rfl

@[simp] lemma doLineSearch_model_cost_change (env : Env) (s : MinState) :
    (doLineSearch env s).model_cost_change = s.model_cost_change := by
  unfold doLineSearch
  try dsimp only
  repeat' split
  all_goals rfl

@[simp] lemma doLineSearch_iterations (env : Env) (s : MinState) :
    (doLineSearch env s).iterations = s.iterations := by
  unfold doLineSearch
  try dsimp only
  repeat' split
  all_goals rfl

@[simp] lemma doLineSearch_initial_cost (env : Env) (s : MinState) :
    (doLineSearch env s).initial_cost = s.initial_cost := by
  unfold doLineSearch
  try dsimp only
  repeat' split
  all_goals rfl

@[simp] lemma doLineSearch_iteration_summary (env : Env) (s : MinState) :
    (doLineSearch env s).iteration_summary = s.iteration_summary := by
  unfold doLineSearch
  try dsimp only
  repeat' split
  all_goals rfl

@[simp] lemma prepareDelta_x (env : Env) (opts : Options) (s : MinState) :
    (prepareDelta env opts s).x = s.x := by
  unfold prepareDelta doLineSearch
  try dsimp only
  repeat' split
  all_goals rfl

@[simp] lemma prepareDelta_x_norm (env : Env) (opts : Options) (s : MinState) :
    (prepareDelta env opts s).x_norm = s.x_norm := by
  unfold prepareDelta doLineSearch
  try dsimp only
  repeat' split
  all_goals rfl

@[simp] lemma prepareDelta_cost (env : Env) (opts : Options) (s : MinState) :
    (prepareDelta env opts s).cost = s.cost := by
  unfold prepareDelta doLineSearch
  try dsimp only
  repeat' split
  all_goals rfl

@[simp] lemma prepareDelta_residuals (env : Env) (opts : Options) (s : MinState) :
    (prepareDelta env opts s).residuals = s.residuals := by
  unfold prepareDelta doLineSearch
  try dsimp only
  repeat' split
  all_goals rfl

@[simp] lemma prepareDelta_gradient (env : Env) (opts : Options) (s : MinState) :
    (prepareDelta env opts s).gradient = s.gradient := by
  unfold prepareDelta doLineSearch
  try dsimp only
  repeat' split
  all_goals rfl

@[simp] lemma prepareDelta_jacobian (env : Env) (opts : Options) (s : MinState) :
    (prepareDelta env opts s).jacobian = s.jacobian := by
  unfold prepareDelta doLineSearch
  try dsimp only
  repeat' split
  all_goals rfl

@[simp] lemma prepareDelta_scale (env : Env) (opts : Options) (s : MinState) :
    (prepareDelta env opts s).scale = s.scale := by
  unfold prepareDelta doLineSearch
  try dsimp only
  repeat' split
  all_goals rfl

@[simp] lemma prepareDelta_parameters (env : Env) (opts : Options) (s : MinState) :
    (prepareDelta env opts s).parameters = s.parameters := by
  unfold prepareDelta doLineSearch
  try dsimp only
  repeat' split
  all_goals rfl

@[simp] lemma prepareDelta_minimum_cost (env : Env) (opts : Options) (s : MinState) :
    (prepareDelta env opts s).minimum_cost = s.minimum_cost := by
  unfold prepareDelta doLineSearch
  try dsimp only
  repeat' split
  all_goals rfl

@[simp] lemma prepareDelta_acceptedLog (env : Env) (opts : Options) (s : MinState) :
    (prepareDelta env opts s).acceptedLog = s.acceptedLog := by
  unfold prepareDelta doLineSearch
  try dsimp only
  repeat' split
  all_goals rfl

@[simp] lemma prepareDelta_seSeed (env : Env) (opts : Options) (s : MinState) :
    (prepareDelta env opts s).seSeed = s.seSeed := by
  unfold prepareDelta doLineSearch
  try dsimp only
  repeat' split
  all_goals rfl

@[simp] lemma prepareDelta_seHistory (env : Env) (opts : Options) (s : MinState) :
    (prepareDelta env opts s).seHistory = s.seHistory := by
  unfold prepareDelta doLineSearch
  try dsimp only
  repeat' split
  all_goals rfl

@[simp] lemma prepareDelta_stratEvents (env : Env) (opts : Options) (s : MinState) :
    (prepareDelta env opts s).stratEvents = s.stratEvents := by
  unfold prepareDelta doLineSearch
  try dsimp only
  repeat' split
  all_goals rfl

@[simp] lemma prepareDelta_num_successful_steps (env : Env) (opts : Options) (s : MinState) :
    (prepareDelta env opts s).num_successful_steps = s.num_successful_steps := by
  unfold prepareDelta doLineSearch
  try dsimp only
  repeat' split
  all_goals rfl

@[simp] lemma prepareDelta_num_unsuccessful_steps (env : Env) (opts : Options) (s : MinState) :
    (prepareDelta env opts s).num_unsuccessful_steps = s.num_unsuccessful_steps := by
  unfold prepareDelta doLineSearch
  try dsimp only
  repeat' split
  all_goals rfl

@[simp] lemma prepareDelta_termination (env : Env) (opts : Options) (s : MinState) :
    (prepareDelta env opts s).termination = s.termination := by
  unfold prepareDelta doLineSearch
  try dsimp only
  repeat' split
  all_goals rfl

@[simp] lemma prepareDelta_inner_iterations_are_enabled (env : Env) (opts : Options) (s : MinState) :
    (prepareDelta env opts s).inner_iterations_are_enabled = s.inner_iterations_are_enabled := by
  unfold prepareDelta doLineSearch
  try dsimp only
  repeat' split
  all_goals rfl

@[simp] lemma prepareDelta_inner_iterations_were_useful (env : Env) (opts : Options) (s : MinState) :
    (prepareDelta env opts s).inner_iterations_were_useful = s.inner_iterations_were_useful := by
  unfold prepareDelta doLineSearch
  try dsimp only
  repeat' split
  all_goals rfl

@[simp] lemma prepareDelta_x_plus_delta (env : Env) (opts : Options) (s : MinState) :
    (prepareDelta env opts s).x_plus_delta = s.x_plus_delta := by
  unfold prepareDelta doLineSearch
  try dsimp only
  repeat' split
  all_goals rfl

@[simp] lemma prepareDelta_trust_region_step (env : Env) (opts : Options) (s : MinState) :
    (prepareDelta env opts s).trust_region_step = s.trust_region_step := by
  unfold prepareDelta doLineSearch
  try dsimp only
  repeat' split
  all_goals rfl

@[simp] lemma prepareDelta_model_cost_change (env : Env) (opts : Options) (s : MinState) :
    (prepareDelta env opts s).model_cost_change = s.model_cost_change := by
  unfold prepareDelta doLineSearch
  try dsimp only
  repeat' split
  all_goals rfl

@[simp] lemma prepareDelta_iterations (env : Env) (opts : Options) (s : MinState) :
    (prepareDelta env opts s).iterations = s.iterations := by
  unfold prepareDelta doLineSearch
  try dsimp only
  repeat' split
  all_goals rfl

@[simp] lemma prepareDelta_initial_cost (env : Env) (opts : Options) (s : MinState) :
    (prepareDelta env opts s).initial_cost = s.initial_cost := by
  unfold prepareDelta doLineSearch
  try dsimp only
  repeat' split
  all_goals rfl

@[simp] lemma prepareDelta_iteration_summary (env : Env) (opts : Options) (s : MinState) :
    (prepareDelta env opts s).iteration_summary = s.iteration_summary := by
  unfold prepareDelta doLineSearch
  try dsimp only
  repeat' split
  all_goals rfl

@[simp] lemma evaluateTrialPoint_x (env : Env) (s : MinState) :
    ((evaluateTrialPoint env s).2).x = s.x := by
  unfold evaluateTrialPoint
  try dsimp only
  repeat' split
  all_goals rfl

@[simp] lemma evaluateTrialPoint_x_norm (env : Env) (s : MinState) :
    ((evaluateTrialPoint env s).2).x_norm = s.x_norm := by
  unfold evaluateTrialPoint
  try dsimp only
  repeat' split
  all_goals rfl

@[simp] lemma evaluateTrialPoint_cost (env : Env) (s : MinState) :
    ((evaluateTrialPoint env s).2).cost = s.cost := by
  unfold evaluateTrialPoint
  try dsimp only
  repeat' split
  all_goals rfl

@[simp] lemma evaluateTrialPoint_residuals (env : Env) (s : MinState) :
    ((evaluateTrialPoint env s).2).residuals = s.residuals := by
  unfold evaluateTrialPoint
  try dsimp only
  repeat' split
  all_goals rfl

@[simp] lemma evaluateTrialPoint_gradient (env : Env) (s : MinState) :
    ((evaluateTrialPoint env s).2).gradient = s.gradient := by
  unfold evaluateTrialPoint
  try dsimp only
  repeat' split
  all_goals rfl

@[simp] lemma evaluateTrialPoint_jacobian (env : Env) (s : MinState) :
    ((evaluateTrialPoint env s).2).jacobian = s.jacobian := by
  unfold evaluateTrialPoint
  try dsimp only
  repeat' split
  all_goals rfl

@[simp] lemma evaluateTrialPoint_scale (env : Env) (s : MinState) :
    ((evaluateTrialPoint env s).2).scale = s.scale := by
  unfold evaluateTrialPoint
  try dsimp only
  repeat' split
  all_goals rfl

@[simp] lemma evaluateTrialPoint_parameters (env : Env) (s : MinState) :
    ((evaluateTrialPoint env s).2).parameters = s.parameters := by
  unfold evaluateTrialPoint
  try dsimp only
  repeat' split
  all_goals rfl

@[simp] lemma evaluateTrialPoint_minimum_cost (env : Env) (s : MinState) :
    ((evaluateTrialPoint env s).2).minimum_cost = s.minimum_cost := by
  unfold evaluateTrialPoint
  try dsimp only
  repeat' split
  all_goals rfl

@[simp] lemma evaluateTrialPoint_acceptedLog (env : Env) (s : MinState) :
    ((evaluateTrialPoint env s).2).acceptedLog = s.acceptedLog := by
  unfold evaluateTrialPoint
  try dsimp only
  repeat' split
  all_goals rfl

@[simp] lemma evaluateTrialPoint_seSeed (env : Env) (s : MinState) :
    ((evaluateTrialPoint env s).2).seSeed = s.seSeed := by
  unfold evaluateTrialPoint
  try dsimp only
  repeat' split
  all_goals rfl

@[simp] lemma evaluateTrialPoint_seHistory (env : Env) (s : MinState) :
    ((evaluateTrialPoint env s).2).seHistory = s.seHistory := by
  unfold evaluateTrialPoint
  try dsimp only
  repeat' split
  all_goals rfl

@[simp] lemma evaluateTrialPoint_stratEvents (env : Env) (s : MinState) :
    ((evaluateTrialPoint env s).2).stratEvents = s.stratEvents := by
  unfold evaluateTrialPoint
  try dsimp only
  repeat' split
  all_goals rfl

@[simp] lemma evaluateTrialPoint_num_successful_steps (env : Env) (s : MinState) :
    ((evaluateTrialPoint env s).2).num_successful_steps = s.num_successful_steps := by
  unfold evaluateTrialPoint
  try dsimp only
  repeat' split
  all_goals rfl

@[simp] lemma evaluateTrialPoint_num_unsuccessful_steps (env : Env) (s : MinState) :
    ((evaluateTrialPoint env s).2).num_unsuccessful_steps = s.num_unsuccessful_steps := by
  unfold evaluateTrialPoint
  try dsimp only
  repeat' split
  all_goals rfl

@[simp] lemma evaluateTrialPoint_termination (env : Env) (s : MinState) :
    ((evaluateTrialPoint env s).2).termination = s.termination := by
  unfold evaluateTrialPoint
  try dsimp only
  repeat' split
  all_goals rfl

@[simp] lemma evaluateTrialPoint_inner_iterations_are_enabled (env : Env) (s : MinState) :
    ((evaluateTrialPoint env s).2).inner_iterations_are_enabled = s.inner_iterations_are_enabled := by
  unfold evaluateTrialPoint
  try dsimp only
  repeat' split
  all_goals rfl

@[simp] lemma evaluateTrialPoint_inner_iterations_were_useful (env : Env) (s : MinState) :
    ((evaluateTrialPoint env s).2).inner_iterations_were_useful = s.inner_iterations_were_useful := by
  unfold evaluateTrialPoint
  try dsimp only
  repeat' split
  all_goals rfl

@[simp] lemma evaluateTrialPoint_num_consecutive_invalid_steps (env : Env) (s : MinState) :
    ((evaluateTrialPoint env s).2).num_consecutive_invalid_steps = s.num_consecutive_invalid_steps := by
  unfold evaluateTrialPoint
  try dsimp only
  repeat' split
  all_goals rfl

@[simp] lemma evaluateTrialPoint_delta (env : Env) (s : MinState) :
    ((evaluateTrialPoint env s).2).delta = s.delta := by
  unfold evaluateTrialPoint
  try dsimp only
  repeat' split
  all_goals rfl

@[simp] lemma evaluateTrialPoint_trust_region_step (env : Env) (s : MinState) :
    ((evaluateTrialPoint env s).2).trust_region_step = s.trust_region_step := by
  unfold evaluateTrialPoint
  try dsimp only
  repeat' split
  all_goals rfl

@[simp] lemma evaluateTrialPoint_model_cost_change (env : Env) (s : MinState) :
    ((evaluateTrialPoint env s).2).model_cost_change = s.model_cost_change := by
  unfold evaluateTrialPoint
  try dsimp only
  repeat' split
  all_goals rfl

@[simp] lemma evaluateTrialPoint_iterations (env : Env) (s : MinState) :
    ((evaluateTrialPoint env s).2).iterations = s.iterations := by
  unfold evaluateTrialPoint
  try dsimp only
  repeat' split
  all_goals rfl

@[simp] lemma evaluateTrialPoint_initial_cost (env : Env) (s : MinState) :
    ((evaluateTrialPoint env s).2).initial_cost = s.initial_cost := by
  unfold evaluateTrialPoint
  try dsimp only
  repeat' split
  all_goals rfl

@[simp] lemma evaluateTrialPoint_iteration_summary (env : Env) (s : MinState) :
    ((evaluateTrialPoint env s).2).iteration_summary = s.iteration_summary := by
  unfold evaluateTrialPoint
  try dsimp only
  repeat' split
  all_goals rfl

@[simp] lemma doInnerIterations_x (env : Env) (s : MinState) (xv : Vec) :
    ((doInnerIterations env s xv).2.2).x = s.x := by
  unfold doInnerIterations
  try dsimp only
  repeat' split
  all_goals rfl

@[simp] lemma doInnerIterations_x_norm (env : Env) (s : MinState) (xv : Vec) :
    ((doInnerIterations env s xv).2.2).x_norm = s.x_norm := by
  unfold doInnerIterations
  try dsimp only
  repeat' split
  all_goals rfl

@[simp] lemma doInnerIterations_cost (env : Env) (s : MinState) (xv : Vec) :
    ((doInnerIterations env s xv).2.2).cost = s.cost := by
  unfold doInnerIterations
  try dsimp only
  repeat' split
  all_goals rfl

@[simp] lemma doInnerIterations_residuals (env : Env) (s : MinState) (xv : Vec) :
    ((doInnerIterations env s xv).2.2).residuals = s.residuals := by
  unfold doInnerIterations
  try dsimp only
  repeat' split
  all_goals rfl

@[simp] lemma doInnerIterations_gradient (env : Env) (s : MinState) (xv : Vec) :
    ((doInnerIterations env s xv).2.2).gradient = s.gradient := by
  unfold doInnerIterations
  try dsimp only
  repeat' split
  all_goals rfl

@[simp] lemma doInnerIterations_jacobian (env : Env) (s : MinState) (xv : Vec) :
    ((doInnerIterations env s xv).2.2).jacobian = s.jacobian := by
  unfold doInnerIterations
  try dsimp only
  repeat' split
  all_goals rfl

@[simp] lemma doInnerIterations_scale (env : Env) (s : MinState) (xv : Vec) :
    ((doInnerIterations env s xv).2.2).scale = s.scale := by
  unfold doInnerIterations
  try dsimp only
  repeat' split
  all_goals rfl

@[simp] lemma doInnerIterations_parameters (env : Env) (s : MinState) (xv : Vec) :
    ((doInnerIterations env s xv).2.2).parameters = s.parameters := by
  unfold doInnerIterations
  try dsimp only
  repeat' split
  all_goals rfl

@[simp] lemma doInnerIterations_minimum_cost (env : Env) (s : MinState) (xv : Vec) :
    ((doInnerIterations env s xv).2.2).minimum_cost = s.minimum_cost := by
  unfold doInnerIterations
  try dsimp only
  repeat' split
  all_goals rfl

@[simp] lemma doInnerIterations_acceptedLog (env : Env) (s : MinState) (xv : Vec) :
    ((doInnerIterations env s xv).2.2).acceptedLog = s.acceptedLog := by
  unfold doInnerIterations
  try dsimp only
  repeat' split
  all_goals rfl

@[simp] lemma doInnerIterations_seSeed (env : Env) (s : MinState) (xv : Vec) :
    ((doInnerIterations env s xv).2.2).seSeed = s.seSeed := by
  unfold doInnerIterations
  try dsimp only
  repeat' split
  all_goals rfl

@[simp] lemma doInnerIterations_seHistory (env : Env) (s : MinState) (xv : Vec) :
    ((doInnerIterations env s xv).2.2).seHistory = s.seHistory := by
  unfold doInnerIterations
  try dsimp only
  repeat' split
  all_goals rfl

@[simp] lemma doInnerIterations_stratEvents (env : Env) (s : MinState) (xv : Vec) :
    ((doInnerIterations env s xv).2.2).stratEvents = s.stratEvents := by
  unfold doInnerIterations
  try dsimp only
  repeat' split
  all_goals rfl

@[simp] lemma doInnerIterations_num_successful_steps (env : Env) (s : MinState) (xv : Vec) :
    ((doInnerIterations env s xv).2.2).num_successful_steps = s.num_successful_steps := by
  unfold doInnerIterations
  try dsimp only
  repeat' split
  all_goals rfl

@[simp] lemma doInnerIterations_num_unsuccessful_steps (env : Env) (s : MinState) (xv : Vec) :
    ((doInnerIterations env s xv).2.2).num_unsuccessful_steps = s.num_unsuccessful_steps := by
  unfold doInnerIterations
  try dsimp only
  repeat' split
  all_goals rfl

@[simp] lemma doInnerIterations_termination (env : Env) (s : MinState) (xv : Vec) :
    ((doInnerIterations env s xv).2.2).termination = s.termination := by
  unfold doInnerIterations
  try dsimp only
  repeat' split
  all_goals rfl

@[simp] lemma doInnerIterations_inner_iterations_are_enabled (env : Env) (s : MinState) (xv : Vec) :
    ((doInnerIterations env s xv).2.2).inner_iterations_are_enabled = s.inner_iterations_are_enabled := by
  unfold doInnerIterations
  try dsimp only
  repeat' split
  all_goals rfl

@[simp] lemma doInnerIterations_inner_iterations_were_useful (env : Env) (s : MinState) (xv : Vec) :
    ((doInnerIterations env s xv).2.2).inner_iterations_were_useful = s.inner_iterations_were_useful := by
  unfold doInnerIterations
  try dsimp only
  repeat' split
  all_goals rfl

@[simp] lemma doInnerIterations_num_consecutive_invalid_steps (env : Env) (s : MinState) (xv : Vec) :
    ((doInnerIterations env s xv).2.2).num_consecutive_invalid_steps = s.num_consecutive_invalid_steps := by
  unfold doInnerIterations
  try dsimp only
  repeat' split
  all_goals rfl

@[simp] lemma doInnerIterations_delta (env : Env) (s : MinState) (xv : Vec) :
    ((doInnerIterations env s xv).2.2).delta = s.delta := by
  unfold doInnerIterations
  try dsimp only
  repeat' split
  all_goals rfl

@[simp] lemma doInnerIterations_x_plus_delta (env : Env) (s : MinState) (xv : Vec) :
    ((doInnerIterations env s xv).2.2).x_plus_delta = s.x_plus_delta := by
  unfold doInnerIterations
  try dsimp only
  repeat' split
  all_goals rfl

@[simp] lemma doInnerIterations_trust_region_step (env : Env) (s : MinState) (xv : Vec) :
    ((doInnerIterations env s xv).2.2).trust_region_step = s.trust_region_step := by
  unfold doInnerIterations
  try dsimp only
  repeat' split
  all_goals rfl

@[simp] lemma doInnerIterations_model_cost_change (env : Env) (s : MinState) (xv : Vec) :
    ((doInnerIterations env s xv).2.2).model_cost_change = s.model_cost_change := by
  unfold doInnerIterations
  try dsimp only
  repeat' split
  all_goals rfl

@[simp] lemma doInnerIterations_iterations (env : Env) (s : MinState) (xv : Vec) :
    ((doInnerIterations env s xv).2.2).iterations = s.iterations := by
  unfold doInnerIterations
  try dsimp only
  repeat' split
  all_goals rfl

@[simp] lemma doInnerIterations_initial_cost (env : Env) (s : MinState) (xv : Vec) :
    ((doInnerIterations env s xv).2.2).initial_cost = s.initial_cost := by
  unfold doInnerIterations
  try dsimp only
  repeat' split
  all_goals rfl

@[simp] lemma doInnerIterations_iteration_summary (env : Env) (s : MinState) (xv : Vec) :
    ((doInnerIterations env s xv).2.2).iteration_summary = s.iteration_summary := by
  unfold doInnerIterations
  try dsimp only
  repeat' split
  all_goals rfl

@[simp] lemma innerIterationPhase_x (env : Env) (opts : Options) (nc : ℚ) (s : MinState) :
    ((innerIterationPhase env opts nc s).2).x = s.x := by
  unfold innerIterationPhase
  try dsimp only
  repeat' split
  all_goals simp

@[simp] lemma innerIterationPhase_x_norm (env : Env) (opts : Options) (nc : ℚ) (s : MinState) :
    ((innerIterationPhase env opts nc s).2).x_norm = s.x_norm := by
  unfold innerIterationPhase
  try dsimp only
  repeat' split
  all_goals simp

@[simp] lemma innerIterationPhase_cost (env : Env) (opts : Options) (nc : ℚ) (s : MinState) :
    ((innerIterationPhase env opts nc s).2).cost = s.cost := by
  unfold innerIterationPhase
  try dsimp only
  repeat' split
  all_goals simp

@[simp] lemma innerIterationPhase_residuals (env : Env) (opts : Options) (nc : ℚ) (s : MinState) :
    ((innerIterationPhase env opts nc s).2).residuals = s.residuals := by
  unfold innerIterationPhase
  try dsimp only
  repeat' split
  all_goals simp

@[simp] lemma innerIterationPhase_gradient (env : Env) (opts : Options) (nc : ℚ) (s : MinState) :
    ((innerIterationPhase env opts nc s).2).gradient = s.gradient := by
  unfold innerIterationPhase
  try dsimp only
  repeat' split
  all_goals simp

@[simp] lemma innerIterationPhase_jacobian (env : Env) (opts : Options) (nc : ℚ) (s : MinState) :
    ((innerIterationPhase env opts nc s).2).jacobian = s.jacobian := by
  unfold innerIterationPhase
  try dsimp only
  repeat' split
  all_goals simp

@[simp] lemma innerIterationPhase_scale (env : Env) (opts : Options) (nc : ℚ) (s : MinState) :
    ((innerIterationPhase env opts nc s).2).scale = s.scale := by
  unfold innerIterationPhase
  try dsimp only
  repeat' split
  all_goals simp

@[simp] lemma innerIterationPhase_parameters (env : Env) (opts : Options) (nc : ℚ) (s : MinState) :
    ((innerIterationPhase env opts nc s).2).parameters = s.parameters := by
  unfold innerIterationPhase
  try dsimp only
  repeat' split
  all_goals simp

@[simp] lemma innerIterationPhase_minimum_cost (env : Env) (opts : Options) (nc : ℚ) (s : MinState) :
    ((innerIterationPhase env opts nc s).2).minimum_cost = s.minimum_cost := by
  unfold innerIterationPhase
  try dsimp only
  repeat' split
  all_goals simp

@[simp] lemma innerIterationPhase_acceptedLog (env : Env) (opts : Options) (nc : ℚ) (s : MinState) :
    ((innerIterationPhase env opts nc s).2).acceptedLog = s.acceptedLog := by
  unfold innerIterationPhase
  try dsimp only
  repeat' split
  all_goals simp

@[simp] lemma innerIterationPhase_seSeed (env : Env) (opts : Options) (nc : ℚ) (s : MinState) :
    ((innerIterationPhase env opts nc s).2).seSeed = s.seSeed := by
  unfold innerIterationPhase
  try dsimp only
  repeat' split
  all_goals simp

@[simp] lemma innerIterationPhase_seHistory (env : Env) (opts : Options) (nc : ℚ) (s : MinState) :
    ((innerIterationPhase env opts nc s).2).seHistory = s.seHistory := by
  unfold innerIterationPhase
  try dsimp only
  repeat' split
  all_goals simp

@[simp] lemma innerIterationPhase_stratEvents (env : Env) (opts : Options) (nc : ℚ) (s : MinState) :
    ((innerIterationPhase env opts nc s).2).stratEvents = s.stratEvents := by
  unfold innerIterationPhase
  try dsimp only
  repeat' split
  all_goals simp

@[simp] lemma innerIterationPhase_num_successful_steps (env : Env) (opts : Options) (nc : ℚ) (s : MinState) :
    ((innerIterationPhase env opts nc s).2).num_successful_steps = s.num_successful_steps := by
  unfold innerIterationPhase
  try dsimp only
  repeat' split
  all_goals simp

@[simp] lemma innerIterationPhase_num_unsuccessful_steps (env : Env) (opts : Options) (nc : ℚ) (s : MinState) :
    ((innerIterationPhase env opts nc s).2).num_unsuccessful_steps = s.num_unsuccessful_steps := by
  unfold innerIterationPhase
  try dsimp only
  repeat' split
  all_goals simp

@[simp] lemma innerIterationPhase_termination (env : Env) (opts : Options) (nc : ℚ) (s : MinState) :
    ((innerIterationPhase env opts nc s).2).termination = s.termination := by
  unfold innerIterationPhase
  try dsimp only
  repeat' split
  all_goals simp

@[simp] lemma innerIterationPhase_num_consecutive_invalid_steps (env : Env) (opts : Options) (nc : ℚ) (s : MinState) :
    ((innerIterationPhase env opts nc s).2).num_consecutive_invalid_steps = s.num_consecutive_invalid_steps := by
  unfold innerIterationPhase
  try dsimp only
  repeat' split
  all_goals simp

@[simp] lemma innerIterationPhase_delta (env : Env) (opts : Options) (nc : ℚ) (s : MinState) :
    ((innerIterationPhase env opts nc s).2).delta = s.delta := by
  unfold innerIterationPhase
  try dsimp only
  repeat' split
  all_goals simp

@[simp] lemma innerIterationPhase_trust_region_step (env : Env) (opts : Options) (nc : ℚ) (s : MinState) :
    ((innerIterationPhase env opts nc s).2).trust_region_step = s.trust_region_step := by
  unfold innerIterationPhase
  try dsimp only
  repeat' split
  all_goals simp

@[simp] lemma innerIterationPhase_iterations (env : Env) (opts : Options) (nc : ℚ) (s : MinState) :
    ((innerIterationPhase env opts nc s).2).iterations = s.iterations := by
  unfold innerIterationPhase
  try dsimp only
  repeat' split
  all_goals simp

@[simp] lemma innerIterationPhase_initial_cost (env : Env) (opts : Options) (nc : ℚ) (s : MinState) :
    ((innerIterationPhase env opts nc s).2).initial_cost = s.initial_cost := by
  unfold innerIterationPhase
  try dsimp only
  repeat' split
  all_goals simp

@[simp] lemma innerIterationPhase_iteration_summary (env : Env) (opts : Options) (nc : ℚ) (s : MinState) :
    ((innerIterationPhase env opts nc s).2).iteration_summary = s.iteration_summary := by
  unfold innerIterationPhase
  try dsimp only
  repeat' split
  all_goals simp

@[simp] lemma computeTRS_x (env : Env) (opts : Options) (s : MinState) :
    ((computeTrustRegionStep env opts s).1).x = s.x := by
  unfold computeTrustRegionStep readClock
  try dsimp only
  repeat' split
  all_goals rfl

@[simp] lemma computeTRS_x_norm (env : Env) (opts : Options) (s : MinState) :
    ((computeTrustRegionStep env opts s).1).x_norm = s.x_norm := by
  unfold computeTrustRegionStep readClock
  try dsimp only
  repeat' split
  all_goals rfl

@[simp] lemma computeTRS_cost (env : Env) (opts : Options) (s : MinState) :
    ((computeTrustRegionStep env opts s).1).cost = s.cost := by
  unfold computeTrustRegionStep readClock
  try dsimp only
  repeat' split
  all_goals rfl

@[simp] lemma computeTRS_residuals (env : Env) (opts : Options) (s : MinState) :
    ((computeTrustRegionStep env opts s).1).residuals = s.residuals := by
  unfold computeTrustRegionStep readClock
  try dsimp only
  repeat' split
  all_goals rfl

@[simp] lemma computeTRS_gradient (env : Env) (opts : Options) (s : MinState) :
    ((computeTrustRegionStep env opts s).1).gradient = s.gradient := by
  unfold computeTrustRegionStep readClock
  try dsimp only
  repeat' split
  all_goals rfl

@[simp] lemma computeTRS_jacobian (env : Env) (opts : Options) (s : MinState) :
    ((computeTrustRegionStep env opts s).1).jacobian = s.jacobian := by
  unfold computeTrustRegionStep readClock
  try dsimp only
  repeat' split
  all_goals rfl

@[simp] lemma computeTRS_scale (env : Env) (opts : Options) (s : MinState) :
    ((computeTrustRegionStep env opts s).1).scale = s.scale := by
  unfold computeTrustRegionStep readClock
  try dsimp only
  repeat' split
  all_goals rfl

@[simp] lemma computeTRS_parameters (env : Env) (opts : Options) (s : MinState) :
    ((computeTrustRegionStep env opts s).1).parameters = s.parameters := by
  unfold computeTrustRegionStep readClock
  try dsimp only
  repeat' split
  all_goals rfl

@[simp] lemma computeTRS_minimum_cost (env : Env) (opts : Options) (s : MinState) :
    ((computeTrustRegionStep env opts s).1).minimum_cost = s.minimum_cost := by
  unfold computeTrustRegionStep readClock
  try dsimp only
  repeat' split
  all_goals rfl

@[simp] lemma computeTRS_acceptedLog (env : Env) (opts : Options) (s : MinState) :
    ((computeTrustRegionStep env opts s).1).acceptedLog = s.acceptedLog := by
  unfold computeTrustRegionStep readClock
  try dsimp only
  repeat' split
  all_goals rfl

@[simp] lemma computeTRS_seSeed (env : Env) (opts : Options) (s : MinState) :
    ((computeTrustRegionStep env opts s).1).seSeed = s.seSeed := by
  unfold computeTrustRegionStep readClock
  try dsimp only
  repeat' split
  all_goals rfl

@[simp] lemma computeTRS_seHistory (env : Env) (opts : Options) (s : MinState) :
    ((computeTrustRegionStep env opts s).1).seHistory = s.seHistory := by
  unfold computeTrustRegionStep readClock
  try dsimp only
  repeat' split
  all_goals rfl

@[simp] lemma computeTRS_num_successful_steps (env : Env) (opts : Options) (s : MinState) :
    ((computeTrustRegionStep env opts s).1).num_successful_steps = s.num_successful_steps := by
  unfold computeTrustRegionStep readClock
  try dsimp only
  repeat' split
  all_goals rfl

@[simp] lemma computeTRS_num_unsuccessful_steps (env : Env) (opts : Options) (s : MinState) :
    ((computeTrustRegionStep env opts s).1).num_unsuccessful_steps = s.num_unsuccessful_steps := by
  unfold computeTrustRegionStep readClock
  try dsimp only
  repeat' split
  all_goals rfl

@[simp] lemma computeTRS_inner_iterations_are_enabled (env : Env) (opts : Options) (s : MinState) :
    ((computeTrustRegionStep env opts s).1).inner_iterations_are_enabled = s.inner_iterations_are_enabled := by
  unfold computeTrustRegionStep readClock
  try dsimp only
  repeat' split
  all_goals rfl

@[simp] lemma computeTRS_inner_iterations_were_useful (env : Env) (opts : Options) (s : MinState) :
    ((computeTrustRegionStep env opts s).1).inner_iterations_were_useful = s.inner_iterations_were_useful := by
  unfold computeTrustRegionStep readClock
  try dsimp only
  repeat' split
  all_goals rfl

@[simp] lemma computeTRS_num_consecutive_invalid_steps (env : Env) (opts : Options) (s : MinState) :
    ((computeTrustRegionStep env opts s).1).num_consecutive_invalid_steps = s.num_consecutive_invalid_steps := by
  unfold computeTrustRegionStep readClock
  try dsimp only
  repeat' split
  all_goals rfl

@[simp] lemma computeTRS_delta (env : Env) (opts : Options) (s : MinState) :
    ((computeTrustRegionStep env opts s).1).delta = s.delta := by
  unfold computeTrustRegionStep readClock
  try dsimp only
  repeat' split
  all_goals rfl

@[simp] lemma computeTRS_x_plus_delta (env : Env) (opts : Options) (s : MinState) :
    ((computeTrustRegionStep env opts s).1).x_plus_delta = s.x_plus_delta := by
  unfold computeTrustRegionStep readClock
  try dsimp only
  repeat' split
  all_goals rfl

@[simp] lemma computeTRS_iterations (env : Env) (opts : Options) (s : MinState) :
    ((computeTrustRegionStep env opts s).1).iterations = s.iterations := by
  unfold computeTrustRegionStep readClock
  try dsimp only
  repeat' split
  all_goals rfl

@[simp] lemma computeTRS_initial_cost (env : Env) (opts : Options) (s : MinState) :
    ((computeTrustRegionStep env opts s).1).initial_cost = s.initial_cost := by
  unfold computeTrustRegionStep readClock
  try dsimp only
  repeat' split
  all_goals rfl

@[simp] lemma computeTRS_summary_iteration (env : Env) (opts : Options) (s : MinState) :
    ((computeTrustRegionStep env opts s).1).iteration_summary.iteration = s.iteration_summary.iteration := by
  unfold computeTrustRegionStep readClock
  try dsimp only
  repeat' split
  all_goals rfl

@[simp] lemma computeTRS_summary_step_is_successful (env : Env) (opts : Options) (s : MinState) :
    ((computeTrustRegionStep env opts s).1).iteration_summary.step_is_successful = s.iteration_summary.step_is_successful := by
  unfold computeTrustRegionStep readClock
  try dsimp only
  repeat' split
  all_goals rfl

@[simp] lemma computeTRS_summary_gradient_max_norm (env : Env) (opts : Options) (s : MinState) :
    ((computeTrustRegionStep env opts s).1).iteration_summary.gradient_max_norm = s.iteration_summary.gradient_max_norm := by
  unfold computeTrustRegionStep readClock
  try dsimp only
  repeat' split
  all_goals rfl

@[simp] lemma computeTRS_summary_gradient_norm (env : Env) (opts : Options) (s : MinState) :
    ((computeTrustRegionStep env opts s).1).iteration_summary.gradient_norm = s.iteration_summary.gradient_norm := by
  unfold computeTrustRegionStep readClock
  try dsimp only
  repeat' split
  all_goals rfl

@[simp] lemma computeTRS_summary_cost (env : Env) (opts : Options) (s : MinState) :
    ((computeTrustRegionStep env opts s).1).iteration_summary.cost = s.iteration_summary.cost := by
  unfold computeTrustRegionStep readClock
  try dsimp only
  repeat' split
  all_goals rfl

@[simp] lemma computeTRS_summary_cost_change (env : Env) (opts : Options) (s : MinState) :
    ((computeTrustRegionStep env opts s).1).iteration_summary.cost_change = s.iteration_summary.cost_change := by
  unfold computeTrustRegionStep readClock
  try dsimp only
  repeat' split
  all_goals rfl

@[simp] lemma computeTRS_summary_step_norm (env : Env) (opts : Options) (s : MinState) :
    ((computeTrustRegionStep env opts s).1).iteration_summary.step_norm = s.iteration_summary.step_norm := by
  unfold computeTrustRegionStep readClock
  try dsimp only
  repeat' split
  all_goals rfl

@[simp] lemma computeTRS_summary_relative_decrease (env : Env) (opts : Options) (s : MinState) :
    ((computeTrustRegionStep env opts s).1).iteration_summary.relative_decrease = s.iteration_summary.relative_decrease := by
  unfold computeTrustRegionStep readClock
  try dsimp only
  repeat' split
  all_goals rfl

@[simp] lemma bodyEntry_x (env : Env) (s : MinState) :
    (bodyEntry env s).x = s.x := by
  unfold bodyEntry readClock
  try dsimp only
  repeat' split
  all_goals rfl

@[simp] lemma bodyEntry_x_norm (env : Env) (s : MinState) :
    (bodyEntry env s).x_norm = s.x_norm := by
  unfold bodyEntry readClock
  try dsimp only
  repeat' split
  all_goals rfl

@[simp] lemma bodyEntry_cost (env : Env) (s : MinState) :
    (bodyEntry env s).cost = s.cost := by
  unfold bodyEntry readClock
  try dsimp only
  repeat' split
  all_goals rfl

@[simp] lemma bodyEntry_residuals (env : Env) (s : MinState) :
    (bodyEntry env s).residuals = s.residuals := by
  unfold bodyEntry readClock
  try dsimp only
  repeat' split
  all_goals rfl

@[simp] lemma bodyEntry_gradient (env : Env) (s : MinState) :
    (bodyEntry env s).gradient = s.gradient := by
  unfold bodyEntry readClock
  try dsimp only
  repeat' split
  all_goals rfl

@[simp] lemma bodyEntry_jacobian (env : Env) (s : MinState) :
    (bodyEntry env s).jacobian = s.jacobian := by
  unfold bodyEntry readClock
  try dsimp only
  repeat' split
  all_goals rfl

@[simp] lemma bodyEntry_scale (env : Env) (s : MinState) :
    (bodyEntry env s).scale = s.scale := by
  unfold bodyEntry readClock
  try dsimp only
  repeat' split
  all_goals rfl

@[simp] lemma bodyEntry_parameters (env : Env) (s : MinState) :
    (bodyEntry env s).parameters = s.parameters := by
  unfold bodyEntry readClock
  try dsimp only
  repeat' split
  all_goals rfl

@[simp] lemma bodyEntry_minimum_cost (env : Env) (s : MinState) :
    (bodyEntry env s).minimum_cost = s.minimum_cost := by
  unfold bodyEntry readClock
  try dsimp only
  repeat' split
  all_goals rfl

@[simp] lemma bodyEntry_acceptedLog (env : Env) (s : MinState) :
    (bodyEntry env s).acceptedLog = s.acceptedLog := by
  unfold bodyEntry readClock
  try dsimp only
  repeat' split
  all_goals rfl

@[simp] lemma bodyEntry_seSeed (env : Env) (s : MinState) :
    (bodyEntry env s).seSeed = s.seSeed := by
  unfold bodyEntry readClock
  try dsimp only
  repeat' split
  all_goals rfl

@[simp] lemma bodyEntry_seHistory (env : Env) (s : MinState) :
    (bodyEntry env s).seHistory = s.seHistory := by
  unfold bodyEntry readClock
  try dsimp only
  repeat' split
  all_goals rfl

@[simp] lemma bodyEntry_stratEvents (env : Env) (s : MinState) :
    (bodyEntry env s).stratEvents = s.stratEvents := by
  unfold bodyEntry readClock
  try dsimp only
  repeat' split
  all_goals rfl

@[simp] lemma bodyEntry_num_successful_steps (env : Env) (s : MinState) :
    (bodyEntry env s).num_successful_steps = s.num_successful_steps := by
  unfold bodyEntry readClock
  try dsimp only
  repeat' split
  all_goals rfl

@[simp] lemma bodyEntry_num_unsuccessful_steps (env : Env) (s : MinState) :
    (bodyEntry env s).num_unsuccessful_steps = s.num_unsuccessful_steps := by
  unfold bodyEntry readClock
  try dsimp only
  repeat' split
  all_goals rfl

@[simp] lemma bodyEntry_termination (env : Env) (s : MinState) :
    (bodyEntry env s).termination = s.termination := by
  unfold bodyEntry readClock
  try dsimp only
  repeat' split
  all_goals rfl

@[simp] lemma bodyEntry_inner_iterations_are_enabled (env : Env) (s : MinState) :
    (bodyEntry env s).inner_iterations_are_enabled = s.inner_iterations_are_enabled := by
  unfold bodyEntry readClock
  try dsimp only
  repeat' split
  all_goals rfl

@[simp] lemma bodyEntry_inner_iterations_were_useful (env : Env) (s : MinState) :
    (bodyEntry env s).inner_iterations_were_useful = s.inner_iterations_were_useful := by
  unfold bodyEntry readClock
  try dsimp only
  repeat' split
  all_goals rfl

@[simp] lemma bodyEntry_num_consecutive_invalid_steps (env : Env) (s : MinState) :
    (bodyEntry env s).num_consecutive_invalid_steps = s.num_consecutive_invalid_steps := by
  unfold bodyEntry readClock
  try dsimp only
  repeat' split
  all_goals rfl

@[simp] lemma bodyEntry_delta (env : Env) (s : MinState) :
    (bodyEntry env s).delta = s.delta := by
  unfold bodyEntry readClock
  try dsimp only
  repeat' split
  all_goals rfl

@[simp] lemma bodyEntry_x_plus_delta (env : Env) (s : MinState) :
    (bodyEntry env s).x_plus_delta = s.x_plus_delta := by
  unfold bodyEntry readClock
  try dsimp only
  repeat' split
  all_goals rfl

@[simp] lemma bodyEntry_trust_region_step (env : Env) (s : MinState) :
    (bodyEntry env s).trust_region_step = s.trust_region_step := by
  unfold bodyEntry readClock
  try dsimp only
  repeat' split
  all_goals rfl

@[simp] lemma bodyEntry_model_cost_change (env : Env) (s : MinState) :
    (bodyEntry env s).model_cost_change = s.model_cost_change := by
  unfold bodyEntry readClock
  try dsimp only
  repeat' split
  all_goals rfl

@[simp] lemma bodyEntry_iterations (env : Env) (s : MinState) :
    (bodyEntry env s).iterations = s.iterations := by
  unfold bodyEntry readClock
  try dsimp only
  repeat' split
  all_goals rfl

@[simp] lemma bodyEntry_initial_cost (env : Env) (s : MinState) :
    (bodyEntry env s).initial_cost = s.initial_cost := by
  unfold bodyEntry readClock
  try dsimp only
  repeat' split
  all_goals rfl

@[simp] lemma egj_x (env : Env) (opts : Options) (s : MinState) :
    ((evaluateGradientAndJacobian env opts s).1).x = s.x := by
  unfold evaluateGradientAndJacobian
  try dsimp only
  repeat' split
  all_goals rfl

@[simp] lemma egj_x_norm (env : Env) (opts : Options) (s : MinState) :
    ((evaluateGradientAndJacobian env opts s).1).x_norm = s.x_norm := by
  unfold evaluateGradientAndJacobian
  try dsimp only
  repeat' split
  all_goals rfl

@[simp] lemma egj_parameters (env : Env) (opts : Options) (s : MinState) :
    ((evaluateGradientAndJacobian env opts s).1).parameters = s.parameters := by
  unfold evaluateGradientAndJacobian
  try dsimp only
  repeat' split
  all_goals rfl

@[simp] lemma egj_minimum_cost (env : Env) (opts : Options) (s : MinState) :
    ((evaluateGradientAndJacobian env opts s).1).minimum_cost = s.minimum_cost := by
  unfold evaluateGradientAndJacobian
  try dsimp only
  repeat' split
  all_goals rfl

@[simp] lemma egj_acceptedLog (env : Env) (opts : Options) (s : MinState) :
    ((evaluateGradientAndJacobian env opts s).1).acceptedLog = s.acceptedLog := by
  unfold evaluateGradientAndJacobian
  try dsimp only
  repeat' split
  all_goals rfl

@[simp] lemma egj_seSeed (env : Env) (opts : Options) (s : MinState) :
    ((evaluateGradientAndJacobian env opts s).1).seSeed = s.seSeed := by
  unfold evaluateGradientAndJacobian
  try dsimp only
  repeat' split
  all_goals rfl

@[simp] lemma egj_seHistory (env : Env) (opts : Options) (s : MinState) :
    ((evaluateGradientAndJacobian env opts s).1).seHistory = s.seHistory := by
  unfold evaluateGradientAndJacobian
  try dsimp only
  repeat' split
  all_goals rfl

@[simp] lemma egj_stratEvents (env : Env) (opts : Options) (s : MinState) :
    ((evaluateGradientAndJacobian env opts s).1).stratEvents = s.stratEvents := by
  unfold evaluateGradientAndJacobian
  try dsimp only
  repeat' split
  all_goals rfl

@[simp] lemma egj_num_successful_steps (env : Env) (opts : Options) (s : MinState) :
    ((evaluateGradientAndJacobian env opts s).1).num_successful_steps = s.num_successful_steps := by
  unfold evaluateGradientAndJacobian
  try dsimp only
  repeat' split
  all_goals rfl

@[simp] lemma egj_num_unsuccessful_steps (env : Env) (opts : Options) (s : MinState) :
    ((evaluateGradientAndJacobian env opts s).1).num_unsuccessful_steps = s.num_unsuccessful_steps := by
  unfold evaluateGradientAndJacobian
  try dsimp only
  repeat' split
  all_goals rfl

@[simp] lemma egj_inner_iterations_are_enabled (env : Env) (opts : Options) (s : MinState) :
    ((evaluateGradientAndJacobian env opts s).1).inner_iterations_are_enabled = s.inner_iterations_are_enabled := by
  unfold evaluateGradientAndJacobian
  try dsimp only
  repeat' split
  all_goals rfl

@[simp] lemma egj_inner_iterations_were_useful (env : Env) (opts : Options) (s : MinState) :
    ((evaluateGradientAndJacobian env opts s).1).inner_iterations_were_useful = s.inner_iterations_were_useful := by
  unfold evaluateGradientAndJacobian
  try dsimp only
  repeat' split
  all_goals rfl

@[simp] lemma egj_num_consecutive_invalid_steps (env : Env) (opts : Options) (s : MinState) :
    ((evaluateGradientAndJacobian env opts s).1).num_consecutive_invalid_steps = s.num_consecutive_invalid_steps := by
  unfold evaluateGradientAndJacobian
  try dsimp only
  repeat' split
  all_goals rfl

@[simp] lemma egj_delta (env : Env) (opts : Options) (s : MinState) :
    ((evaluateGradientAndJacobian env opts s).1).delta = s.delta := by
  unfold evaluateGradientAndJacobian
  try dsimp only
  repeat' split
  all_goals rfl

@[simp] lemma egj_x_plus_delta (env : Env) (opts : Options) (s : MinState) :
    ((evaluateGradientAndJacobian env opts s).1).x_plus_delta = s.x_plus_delta := by
  unfold evaluateGradientAndJacobian
  try dsimp only
  repeat' split
  all_goals rfl

@[simp] lemma egj_trust_region_step (env : Env) (opts : Options) (s : MinState) :
    ((evaluateGradientAndJacobian env opts s).1).trust_region_step = s.trust_region_step := by
  unfold evaluateGradientAndJacobian
  try dsimp only
  repeat' split
  all_goals rfl

@[simp] lemma egj_model_cost_change (env : Env) (opts : Options) (s : MinState) :
    ((evaluateGradientAndJacobian env opts s).1).model_cost_change = s.model_cost_change := by
  unfold evaluateGradientAndJacobian
  try dsimp only
  repeat' split
  all_goals rfl

@[simp] lemma egj_iterations (env : Env) (opts : Options) (s : MinState) :
    ((evaluateGradientAndJacobian env opts s).1).iterations = s.iterations := by
  unfold evaluateGradientAndJacobian
  try dsimp only
  repeat' split
  all_goals rfl

@[simp] lemma egj_initial_cost (env : Env) (opts : Options) (s : MinState) :
    ((evaluateGradientAndJacobian env opts s).1).initial_cost = s.initial_cost := by
  unfold evaluateGradientAndJacobian
  try dsimp only
  repeat' split
  all_goals rfl

@[simp] lemma egj_summary_iteration (env : Env) (opts : Options) (s : MinState) :
    ((evaluateGradientAndJacobian env opts s).1).iteration_summary.iteration = s.iteration_summary.iteration := by
  unfold evaluateGradientAndJacobian
  try dsimp only
  repeat' split
  all_goals rfl

@[simp] lemma egj_summary_step_is_valid (env : Env) (opts : Options) (s : MinState) :
    ((evaluateGradientAndJacobian env opts s).1).iteration_summary.step_is_valid = s.iteration_summary.step_is_valid := by
  unfold evaluateGradientAndJacobian
  try dsimp only
  repeat' split
  all_goals rfl

@[simp] lemma egj_summary_step_is_successful (env : Env) (opts : Options) (s : MinState) :
    ((evaluateGradientAndJacobian env opts s).1).iteration_summary.step_is_successful = s.iteration_summary.step_is_successful := by
  unfold evaluateGradientAndJacobian
  try dsimp only
  repeat' split
  all_goals rfl

@[simp] lemma egj_summary_relative_decrease (env : Env) (opts : Options) (s : MinState) :
    ((evaluateGradientAndJacobian env opts s).1).iteration_summary.relative_decrease = s.iteration_summary.relative_decrease := by
  unfold evaluateGradientAndJacobian
  try dsimp only
  repeat' split
  all_goals rfl

@[simp] lemma egj_summary_step_norm (env : Env) (opts : Options) (s : MinState) :
    ((evaluateGradientAndJacobian env opts s).1).iteration_summary.step_norm = s.iteration_summary.step_norm := by
  unfold evaluateGradientAndJacobian
  try dsimp only
  repeat' split
  all_goals rfl

@[simp] lemma handleInvalid_x (env : Env) (opts : Options) (s : MinState) :
    ((handleInvalidStep env opts s).1).x = s.x := by
  unfold handleInvalidStep
  try dsimp only
  repeat' split
  all_goals rfl

@[simp] lemma handleInvalid_x_norm (env : Env) (opts : Options) (s : MinState) :
    ((handleInvalidStep env opts s).1).x_norm = s.x_norm := by
  unfold handleInvalidStep
  try dsimp only
  repeat' split
  all_goals rfl

@[simp] lemma handleInvalid_cost (env : Env) (opts : Options) (s : MinState) :
    ((handleInvalidStep env opts s).1).cost = s.cost := by
  unfold handleInvalidStep
  try dsimp only
  repeat' split
  all_goals rfl

@[simp] lemma handleInvalid_residuals (env : Env) (opts : Options) (s : MinState) :
    ((handleInvalidStep env opts s).1).residuals = s.residuals := by
  unfold handleInvalidStep
  try dsimp only
  repeat' split
  all_goals rfl

@[simp] lemma handleInvalid_gradient (env : Env) (opts : Options) (s : MinState) :
    ((handleInvalidStep env opts s).1).gradient = s.gradient := by
  unfold handleInvalidStep
  try dsimp only
  repeat' split
  all_goals rfl

@[simp] lemma handleInvalid_jacobian (env : Env) (opts : Options) (s : MinState) :
    ((handleInvalidStep env opts s).1).jacobian = s.jacobian := by
  unfold handleInvalidStep
  try dsimp only
  repeat' split
  all_goals rfl

@[simp] lemma handleInvalid_scale (env : Env) (opts : Options) (s : MinState) :
    ((handleInvalidStep env opts s).1).scale = s.scale := by
  unfold handleInvalidStep
  try dsimp only
  repeat' split
  all_goals rfl

@[simp] lemma handleInvalid_parameters (env : Env) (opts : Options) (s : MinState) :
    ((handleInvalidStep env opts s).1).parameters = s.parameters := by
  unfold handleInvalidStep
  try dsimp only
  repeat' split
  all_goals rfl

@[simp] lemma handleInvalid_minimum_cost (env : Env) (opts : Options) (s : MinState) :
    ((handleInvalidStep env opts s).1).minimum_cost = s.minimum_cost := by
  unfold handleInvalidStep
  try dsimp only
  repeat' split
  all_goals rfl

@[simp] lemma handleInvalid_acceptedLog (env : Env) (opts : Options) (s : MinState) :
    ((handleInvalidStep env opts s).1).acceptedLog = s.acceptedLog := by
  unfold handleInvalidStep
  try dsimp only
  repeat' split
  all_goals rfl

@[simp] lemma handleInvalid_seSeed (env : Env) (opts : Options) (s : MinState) :
    ((handleInvalidStep env opts s).1).seSeed = s.seSeed := by
  unfold handleInvalidStep
  try dsimp only
  repeat' split
  all_goals rfl

@[simp] lemma handleInvalid_seHistory (env : Env) (opts : Options) (s : MinState) :
    ((handleInvalidStep env opts s).1).seHistory = s.seHistory := by
  unfold handleInvalidStep
  try dsimp only
  repeat' split
  all_goals rfl

@[simp] lemma handleInvalid_num_successful_steps (env : Env) (opts : Options) (s : MinState) :
    ((handleInvalidStep env opts s).1).num_successful_steps = s.num_successful_steps := by
  unfold handleInvalidStep
  try dsimp only
  repeat' split
  all_goals rfl

@[simp] lemma handleInvalid_inner_iterations_are_enabled (env : Env) (opts : Options) (s : MinState) :
    ((handleInvalidStep env opts s).1).inner_iterations_are_enabled = s.inner_iterations_are_enabled := by
  unfold handleInvalidStep
  try dsimp only
  repeat' split
  all_goals rfl

@[simp] lemma handleInvalid_inner_iterations_were_useful (env : Env) (opts : Options) (s : MinState) :
    ((handleInvalidStep env opts s).1).inner_iterations_were_useful = s.inner_iterations_were_useful := by
  unfold handleInvalidStep
  try dsimp only
  repeat' split
  all_goals rfl

@[simp] lemma handleInvalid_delta (env : Env) (opts : Options) (s : MinState) :
    ((handleInvalidStep env opts s).1).delta = s.delta := by
  unfold handleInvalidStep
  try dsimp only
  repeat' split
  all_goals rfl

@[simp] lemma handleInvalid_x_plus_delta (env : Env) (opts : Options) (s : MinState) :
    ((handleInvalidStep env opts s).1).x_plus_delta = s.x_plus_delta := by
  unfold handleInvalidStep
  try dsimp only
  repeat' split
  all_goals rfl

@[simp] lemma handleInvalid_trust_region_step (env : Env) (opts : Options) (s : MinState) :
    ((handleInvalidStep env opts s).1).trust_region_step = s.trust_region_step := by
  unfold handleInvalidStep
  try dsimp only
  repeat' split
  all_goals rfl

@[simp] lemma handleInvalid_model_cost_change (env : Env) (opts : Options) (s : MinState) :
    ((handleInvalidStep env opts s).1).model_cost_change = s.model_cost_change := by
  unfold handleInvalidStep
  try dsimp only
  repeat' split
  all_goals rfl

@[simp] lemma handleInvalid_iterations (env : Env) (opts : Options) (s : MinState) :
    ((handleInvalidStep env opts s).1).iterations = s.iterations := by
  unfold handleInvalidStep
  try dsimp only
  repeat' split
  all_goals rfl

@[simp] lemma handleInvalid_initial_cost (env : Env) (opts : Options) (s : MinState) :
    ((handleInvalidStep env opts s).1).initial_cost = s.initial_cost := by
  unfold handleInvalidStep
  try dsimp only
  repeat' split
  all_goals rfl

@[simp] lemma handleInvalid_summary_iteration (env : Env) (opts : Options) (s : MinState) :
    ((handleInvalidStep env opts s).1).iteration_summary.iteration = s.iteration_summary.iteration := by
  unfold handleInvalidStep
  try dsimp only
  repeat' split
  all_goals rfl

@[simp] lemma handleInvalid_summary_step_is_valid (env : Env) (opts : Options) (s : MinState) :
    ((handleInvalidStep env opts s).1).iteration_summary.step_is_valid = s.iteration_summary.step_is_valid := by
  unfold handleInvalidStep
  try dsimp only
  repeat' split
  all_goals rfl

@[simp] lemma handleInvalid_summary_step_is_successful (env : Env) (opts : Options) (s : MinState) :
    ((handleInvalidStep env opts s).1).iteration_summary.step_is_successful = s.iteration_summary.step_is_successful := by
  unfold handleInvalidStep
  try dsimp only
  repeat' split
  all_goals rfl

@[simp] lemma finalizeBk_x (env : Env) (s : MinState) :
    (finalizeBookkeeping env s).x = s.x := by
  unfold finalizeBookkeeping readClock
  try dsimp only
  repeat' split
  all_goals rfl

@[simp] lemma finalizeBk_x_norm (env : Env) (s : MinState) :
    (finalizeBookkeeping env s).x_norm = s.x_norm := by
  unfold finalizeBookkeeping readClock
  try dsimp only
  repeat' split
  all_goals rfl

@[simp] lemma finalizeBk_cost (env : Env) (s : MinState) :
    (finalizeBookkeeping env s).cost = s.cost := by
  unfold finalizeBookkeeping readClock
  try dsimp only
  repeat' split
  all_goals rfl

@[simp] lemma finalizeBk_residuals (env : Env) (s : MinState) :
    (finalizeBookkeeping env s).residuals = s.residuals := by
  unfold finalizeBookkeeping readClock
  try dsimp only
  repeat' split
  all_goals rfl

@[simp] lemma finalizeBk_gradient (env : Env) (s : MinState) :
    (finalizeBookkeeping env s).gradient = s.gradient := by
  unfold finalizeBookkeeping readClock
  try dsimp only
  repeat' split
  all_goals rfl

@[simp] lemma finalizeBk_jacobian (env : Env) (s : MinState) :
    (finalizeBookkeeping env s).jacobian = s.jacobian := by
  unfold finalizeBookkeeping readClock
  try dsimp only
  repeat' split
  all_goals rfl

@[simp] lemma finalizeBk_scale (env : Env) (s : MinState) :
    (finalizeBookkeeping env s).scale = s.scale := by
  unfold finalizeBookkeeping readClock
  try dsimp only
  repeat' split
  all_goals rfl

@[simp] lemma finalizeBk_parameters (env : Env) (s : MinState) :
    (finalizeBookkeeping env s).parameters = s.parameters := by
  unfold finalizeBookkeeping readClock
  try dsimp only
  repeat' split
  all_goals rfl

@[simp] lemma finalizeBk_minimum_cost (env : Env) (s : MinState) :
    (finalizeBookkeeping env s).minimum_cost = s.minimum_cost := by
  unfold finalizeBookkeeping readClock
  try dsimp only
  repeat' split
  all_goals rfl

@[simp] lemma finalizeBk_acceptedLog (env : Env) (s : MinState) :
    (finalizeBookkeeping env s).acceptedLog = s.acceptedLog := by
  unfold finalizeBookkeeping readClock
  try dsimp only
  repeat' split
  all_goals rfl

@[simp] lemma finalizeBk_seSeed (env : Env) (s : MinState) :
    (finalizeBookkeeping env s).seSeed = s.seSeed := by
  unfold finalizeBookkeeping readClock
  try dsimp only
  repeat' split
  all_goals rfl

@[simp] lemma finalizeBk_seHistory (env : Env) (s : MinState) :
    (finalizeBookkeeping env s).seHistory = s.seHistory := by
  unfold finalizeBookkeeping readClock
  try dsimp only
  repeat' split
  all_goals rfl

@[simp] lemma finalizeBk_stratEvents (env : Env) (s : MinState) :
    (finalizeBookkeeping env s).stratEvents = s.stratEvents := by
  unfold finalizeBookkeeping readClock
  try dsimp only
  repeat' split
  all_goals rfl

@[simp] lemma finalizeBk_num_successful_steps (env : Env) (s : MinState) :
    (finalizeBookkeeping env s).num_successful_steps = s.num_successful_steps := by
  unfold finalizeBookkeeping readClock
  try dsimp only
  repeat' split
  all_goals rfl

@[simp] lemma finalizeBk_num_unsuccessful_steps (env : Env) (s : MinState) :
    (finalizeBookkeeping env s).num_unsuccessful_steps = s.num_unsuccessful_steps := by
  unfold finalizeBookkeeping readClock
  try dsimp only
  repeat' split
  all_goals rfl

@[simp] lemma finalizeBk_termination (env : Env) (s : MinState) :
    (finalizeBookkeeping env s).termination = s.termination := by
  unfold finalizeBookkeeping readClock
  try dsimp only
  repeat' split
  all_goals rfl

@[simp] lemma finalizeBk_inner_iterations_are_enabled (env : Env) (s : MinState) :
    (finalizeBookkeeping env s).inner_iterations_are_enabled = s.inner_iterations_are_enabled := by
  unfold finalizeBookkeeping readClock
  try dsimp only
  repeat' split
  all_goals rfl

@[simp] lemma finalizeBk_inner_iterations_were_useful (env : Env) (s : MinState) :
    (finalizeBookkeeping env s).inner_iterations_were_useful = s.inner_iterations_were_useful := by
  unfold finalizeBookkeeping readClock
  try dsimp only
  repeat' split
  all_goals rfl

@[simp] lemma finalizeBk_num_consecutive_invalid_steps (env : Env) (s : MinState) :
    (finalizeBookkeeping env s).num_consecutive_invalid_steps = s.num_consecutive_invalid_steps := by
  unfold finalizeBookkeeping readClock
  try dsimp only
  repeat' split
  all_goals rfl

@[simp] lemma finalizeBk_delta (env : Env) (s : MinState) :
    (finalizeBookkeeping env s).delta = s.delta := by
  unfold finalizeBookkeeping readClock
  try dsimp only
  repeat' split
  all_goals rfl

@[simp] lemma finalizeBk_x_plus_delta (env : Env) (s : MinState) :
    (finalizeBookkeeping env s).x_plus_delta = s.x_plus_delta := by
  unfold finalizeBookkeeping readClock
  try dsimp only
  repeat' split
  all_goals rfl

@[simp] lemma finalizeBk_trust_region_step (env : Env) (s : MinState) :
    (finalizeBookkeeping env s).trust_region_step = s.trust_region_step := by
  unfold finalizeBookkeeping readClock
  try dsimp only
  repeat' split
  all_goals rfl

@[simp] lemma finalizeBk_model_cost_change (env : Env) (s : MinState) :
    (finalizeBookkeeping env s).model_cost_change = s.model_cost_change := by
  unfold finalizeBookkeeping readClock
  try dsimp only
  repeat' split
  all_goals rfl

@[simp] lemma finalizeBk_initial_cost (env : Env) (s : MinState) :
    (finalizeBookkeeping env s).initial_cost = s.initial_cost := by
  unfold finalizeBookkeeping readClock
  try dsimp only
  repeat' split
  all_goals rfl

@[simp] lemma finalizeBk_summary_iteration (env : Env) (s : MinState) :
    (finalizeBookkeeping env s).iteration_summary.iteration = s.iteration_summary.iteration := by
  unfold finalizeBookkeeping readClock
  try dsimp only
  repeat' split
  all_goals rfl

@[simp] lemma finalizeBk_summary_step_is_valid (env : Env) (s : MinState) :
    (finalizeBookkeeping env s).iteration_summary.step_is_valid = s.iteration_summary.step_is_valid := by
  unfold finalizeBookkeeping readClock
  try dsimp only
  repeat' split
  all_goals rfl

@[simp] lemma finalizeBk_summary_step_is_successful (env : Env) (s : MinState) :
    (finalizeBookkeeping env s).iteration_summary.step_is_successful = s.iteration_summary.step_is_successful := by
  unfold finalizeBookkeeping readClock
  try dsimp only
  repeat' split
  all_goals rfl

@[simp] lemma finalizeBk_summary_gradient_max_norm (env : Env) (s : MinState) :
    (finalizeBookkeeping env s).iteration_summary.gradient_max_norm = s.iteration_summary.gradient_max_norm := by
  unfold finalizeBookkeeping readClock
  try dsimp only
  repeat' split
  all_goals rfl

@[simp] lemma finalizeBk_summary_gradient_norm (env : Env) (s : MinState) :
    (finalizeBookkeeping env s).iteration_summary.gradient_norm = s.iteration_summary.gradient_norm := by
  unfold finalizeBookkeeping readClock
  try dsimp only
  repeat' split
  all_goals rfl

@[simp] lemma finalizeBk_summary_cost (env : Env) (s : MinState) :
    (finalizeBookkeeping env s).iteration_summary.cost = s.iteration_summary.cost := by
  unfold finalizeBookkeeping readClock
  try dsimp only
  repeat' split
  all_goals rfl

@[simp] lemma finalizeBk_summary_cost_change (env : Env) (s : MinState) :
    (finalizeBookkeeping env s).iteration_summary.cost_change = s.iteration_summary.cost_change := by
  unfold finalizeBookkeeping readClock
  try dsimp only
  repeat' split
  all_goals rfl

@[simp] lemma finalizeBk_summary_step_norm (env : Env) (s : MinState) :
    (finalizeBookkeeping env s).iteration_summary.step_norm = s.iteration_summary.step_norm := by
  unfold finalizeBookkeeping readClock
  try dsimp only
  repeat' split
  all_goals rfl

@[simp] lemma finalizeBk_summary_relative_decrease (env : Env) (s : MinState) :
    (finalizeBookkeeping env s).iteration_summary.relative_decrease = s.iteration_summary.relative_decrease := by
  unfold finalizeBookkeeping readClock
  try dsimp only
  repeat' split
  all_goals rfl

@[simp] lemma trialPhase_x (env : Env) (opts : Options) (s : MinState) :
    (trialPhase env opts s).2.x = s.x := by
  simp [trialPhase]

@[simp] lemma trialPhase_x_norm (env : Env) (opts : Options) (s : MinState) :
    (trialPhase env opts s).2.x_norm = s.x_norm := by
  simp [trialPhase]

@[simp] lemma trialPhase_cost (env : Env) (opts : Options) (s : MinState) :
    (trialPhase env opts s).2.cost = s.cost := by
  simp [trialPhase]

@[simp] lemma trialPhase_residuals (env : Env) (opts : Options) (s : MinState) :
    (trialPhase env opts s).2.residuals = s.residuals := by
  simp [trialPhase]

@[simp] lemma trialPhase_gradient (env : Env) (opts : Options) (s : MinState) :
    (trialPhase env opts s).2.gradient = s.gradient := by
  simp [trialPhase]

@[simp] lemma trialPhase_jacobian (env : Env) (opts : Options) (s : MinState) :
    (trialPhase env opts s).2.jacobian = s.jacobian := by
  simp [trialPhase]

@[simp] lemma trialPhase_scale (env : Env) (opts : Options) (s : MinState) :
    (trialPhase env opts s).2.scale = s.scale := by
  simp [trialPhase]

@[simp] lemma trialPhase_parameters (env : Env) (opts : Options) (s : MinState) :
    (trialPhase env opts s).2.parameters = s.parameters := by
  simp [trialPhase]

@[simp] lemma trialPhase_minimum_cost (env : Env) (opts : Options) (s : MinState) :
    (trialPhase env opts s).2.minimum_cost = s.minimum_cost := by
  simp [trialPhase]

@[simp] lemma trialPhase_acceptedLog (env : Env) (opts : Options) (s : MinState) :
    (trialPhase env opts s).2.acceptedLog = s.acceptedLog := by
  simp [trialPhase]

@[simp] lemma trialPhase_seSeed (env : Env) (opts : Options) (s : MinState) :
    (trialPhase env opts s).2.seSeed = s.seSeed := by
  simp [trialPhase]

@[simp] lemma trialPhase_seHistory (env : Env) (opts : Options) (s : MinState) :
    (trialPhase env opts s).2.seHistory = s.seHistory := by
  simp [trialPhase]

@[simp] lemma trialPhase_stratEvents (env : Env) (opts : Options) (s : MinState) :
    (trialPhase env opts s).2.stratEvents = s.stratEvents := by
  simp [trialPhase]

@[simp] lemma trialPhase_num_successful_steps (env : Env) (opts : Options) (s : MinState) :
    (trialPhase env opts s).2.num_successful_steps = s.num_successful_steps := by
  simp [trialPhase]

@[simp] lemma trialPhase_num_unsuccessful_steps (env : Env) (opts : Options) (s : MinState) :
    (trialPhase env opts s).2.num_unsuccessful_steps = s.num_unsuccessful_steps := by
  simp [trialPhase]

@[simp] lemma trialPhase_termination (env : Env) (opts : Options) (s : MinState) :
    (trialPhase env opts s).2.termination = s.termination := by
  simp [trialPhase]

@[simp] lemma trialPhase_trust_region_step (env : Env) (opts : Options) (s : MinState) :
    (trialPhase env opts s).2.trust_region_step = s.trust_region_step := by
  simp [trialPhase]

@[simp] lemma trialPhase_iterations (env : Env) (opts : Options) (s : MinState) :
    (trialPhase env opts s).2.iterations = s.iterations := by
  simp [trialPhase]

@[simp] lemma trialPhase_initial_cost (env : Env) (opts : Options) (s : MinState) :
    (trialPhase env opts s).2.initial_cost = s.initial_cost := by
  simp [trialPhase]

@[simp] lemma trialPhase_summary_iteration (env : Env) (opts : Options) (s : MinState) :
    (trialPhase env opts s).2.iteration_summary.iteration = s.iteration_summary.iteration := by
  simp [trialPhase]

@[simp] lemma trialPhase_summary_step_is_valid (env : Env) (opts : Options) (s : MinState) :
    (trialPhase env opts s).2.iteration_summary.step_is_valid = s.iteration_summary.step_is_valid := by
  simp [trialPhase]

@[simp] lemma trialPhase_summary_step_is_successful (env : Env) (opts : Options) (s : MinState) :
    (trialPhase env opts s).2.iteration_summary.step_is_successful = s.iteration_summary.step_is_successful := by
  simp [trialPhase]

@[simp] lemma trialPhase_summary_relative_decrease (env : Env) (opts : Options) (s : MinState) :
    (trialPhase env opts s).2.iteration_summary.relative_decrease = s.iteration_summary.relative_decrease := by
  simp [trialPhase]

@[simp] lemma trialPhase_summary_gradient_max_norm (env : Env) (opts : Options) (s : MinState) :
    (trialPhase env opts s).2.iteration_summary.gradient_max_norm = s.iteration_summary.gradient_max_norm := by
  simp [trialPhase]


/-! ### Frame lemmas for the loop condition -/

@[simp] lemma finalizeIteration_x (env : Env) (opts : Options) (s : MinState) :
    ((finalizeIteration env opts s).1).x = s.x := by
  unfold finalizeIteration finalizeBookkeeping readClock
  try dsimp only
  repeat' split
  all_goals rfl

@[simp] lemma finalizeIteration_x_norm (env : Env) (opts : Options) (s : MinState) :
    ((finalizeIteration env opts s).1).x_norm = s.x_norm := by
  unfold finalizeIteration finalizeBookkeeping readClock
  try dsimp only
  repeat' split
  all_goals rfl

@[simp] lemma finalizeIteration_cost (env : Env) (opts : Options) (s : MinState) :
    ((finalizeIteration env opts s).1).cost = s.cost := by
  unfold finalizeIteration finalizeBookkeeping readClock
  try dsimp only
  repeat' split
  all_goals rfl

@[simp] lemma finalizeIteration_residuals (env : Env) (opts : Options) (s : MinState) :
    ((finalizeIteration env opts s).1).residuals = s.residuals := by
  unfold finalizeIteration finalizeBookkeeping readClock
  try dsimp only
  repeat' split
  all_goals rfl

@[simp] lemma finalizeIteration_gradient (env : Env) (opts : Options) (s : MinState) :
    ((finalizeIteration env opts s).1).gradient = s.gradient := by
  unfold finalizeIteration finalizeBookkeeping readClock
  try dsimp only
  repeat' split
  all_goals rfl

@[simp] lemma finalizeIteration_jacobian (env : Env) (opts : Options) (s : MinState) :
    ((finalizeIteration env opts s).1).jacobian = s.jacobian := by
  unfold finalizeIteration finalizeBookkeeping readClock
  try dsimp only
  repeat' split
  all_goals rfl

@[simp] lemma finalizeIteration_scale (env : Env) (opts : Options) (s : MinState) :
    ((finalizeIteration env opts s).1).scale = s.scale := by
  unfold finalizeIteration finalizeBookkeeping readClock
  try dsimp only
  repeat' split
  all_goals rfl

@[simp] lemma finalizeIteration_parameters (env : Env) (opts : Options) (s : MinState) :
    ((finalizeIteration env opts s).1).parameters = s.parameters := by
  unfold finalizeIteration finalizeBookkeeping readClock
  try dsimp only
  repeat' split
  all_goals rfl

@[simp] lemma finalizeIteration_minimum_cost (env : Env) (opts : Options) (s : MinState) :
    ((finalizeIteration env opts s).1).minimum_cost = s.minimum_cost := by
  unfold finalizeIteration finalizeBookkeeping readClock
  try dsimp only
  repeat' split
  all_goals rfl

@[simp] lemma finalizeIteration_acceptedLog (env : Env) (opts : Options) (s : MinState) :
    ((finalizeIteration env opts s).1).acceptedLog = s.acceptedLog := by
  unfold finalizeIteration finalizeBookkeeping readClock
  try dsimp only
  repeat' split
  all_goals rfl

@[simp] lemma finalizeIteration_seSeed (env : Env) (opts : Options) (s : MinState) :
    ((finalizeIteration env opts s).1).seSeed = s.seSeed := by
  unfold finalizeIteration finalizeBookkeeping readClock
  try dsimp only
  repeat' split
  all_goals rfl

@[simp] lemma finalizeIteration_seHistory (env : Env) (opts : Options) (s : MinState) :
    ((finalizeIteration env opts s).1).seHistory = s.seHistory := by
  unfold finalizeIteration finalizeBookkeeping readClock
  try dsimp only
  repeat' split
  all_goals rfl

@[simp] lemma finalizeIteration_stratEvents (env : Env) (opts : Options) (s : MinState) :
    ((finalizeIteration env opts s).1).stratEvents = s.stratEvents := by
  unfold finalizeIteration finalizeBookkeeping readClock
  try dsimp only
  repeat' split
  all_goals rfl

@[simp] lemma finalizeIteration_num_successful_steps (env : Env) (opts : Options) (s : MinState) :
    ((finalizeIteration env opts s).1).num_successful_steps = s.num_successful_steps := by
  unfold finalizeIteration finalizeBookkeeping readClock
  try dsimp only
  repeat' split
  all_goals rfl

@[simp] lemma finalizeIteration_num_unsuccessful_steps (env : Env) (opts : Options) (s : MinState) :
    ((finalizeIteration env opts s).1).num_unsuccessful_steps = s.num_unsuccessful_steps := by
  unfold finalizeIteration finalizeBookkeeping readClock
  try dsimp only
  repeat' split
  all_goals rfl

@[simp] lemma finalizeIteration_inner_iterations_are_enabled (env : Env) (opts : Options) (s : MinState) :
    ((finalizeIteration env opts s).1).inner_iterations_are_enabled = s.inner_iterations_are_enabled := by
  unfold finalizeIteration finalizeBookkeeping readClock
  try dsimp only
  repeat' split
  all_goals rfl

@[simp] lemma finalizeIteration_inner_iterations_were_useful (env : Env) (opts : Options) (s : MinState) :
    ((finalizeIteration env opts s).1).inner_iterations_were_useful = s.inner_iterations_were_useful := by
  unfold finalizeIteration finalizeBookkeeping readClock
  try dsimp only
  repeat' split
  all_goals rfl

@[simp] lemma finalizeIteration_num_consecutive_invalid_steps (env : Env) (opts : Options) (s : MinState) :
    ((finalizeIteration env opts s).1).num_consecutive_invalid_steps = s.num_consecutive_invalid_steps := by
  unfold finalizeIteration finalizeBookkeeping readClock
  try dsimp only
  repeat' split
  all_goals rfl

@[simp] lemma finalizeIteration_delta (env : Env) (opts : Options) (s : MinState) :
    ((finalizeIteration env opts s).1).delta = s.delta := by
  unfold finalizeIteration finalizeBookkeeping readClock
  try dsimp only
  repeat' split
  all_goals rfl

@[simp] lemma finalizeIteration_x_plus_delta (env : Env) (opts : Options) (s : MinState) :
    ((finalizeIteration env opts s).1).x_plus_delta = s.x_plus_delta := by
  unfold finalizeIteration finalizeBookkeeping readClock
  try dsimp only
  repeat' split
  all_goals rfl

@[simp] lemma finalizeIteration_trust_region_step (env : Env) (opts : Options) (s : MinState) :
    ((finalizeIteration env opts s).1).trust_region_step = s.trust_region_step := by
  unfold finalizeIteration finalizeBookkeeping readClock
  try dsimp only
  repeat' split
  all_goals rfl

@[simp] lemma finalizeIteration_model_cost_change (env : Env) (opts : Options) (s : MinState) :
    ((finalizeIteration env opts s).1).model_cost_change = s.model_cost_change := by
  unfold finalizeIteration finalizeBookkeeping readClock
  try dsimp only
  repeat' split
  all_goals rfl

@[simp] lemma finalizeIteration_initial_cost (env : Env) (opts : Options) (s : MinState) :
    ((finalizeIteration env opts s).1).initial_cost = s.initial_cost := by
  unfold finalizeIteration finalizeBookkeeping readClock
  try dsimp only
  repeat' split
  all_goals rfl

@[simp] lemma finalizeIteration_start_time (env : Env) (opts : Options) (s : MinState) :
    ((finalizeIteration env opts s).1).start_time = s.start_time := by
  unfold finalizeIteration finalizeBookkeeping readClock
  try dsimp only
  repeat' split
  all_goals rfl

/-- The relative decrease recorded (and passed to the strategy) by the
acceptance phase is exactly `StepQuality(new_cost, model_cost_change)` on
the state it receives. -/
lemma acceptancePhase_relative_decrease (env : Env) (opts : Options) (nc : ℚ)
    (s : MinState) :
    (acceptancePhase env opts nc s).1.iteration_summary.relative_decrease =
      env.seQuality s.seSeed s.seHistory nc s.model_cost_change := by
  unfold acceptancePhase
  dsimp only
  repeat' split
  all_goals try simp
  all_goals
    first
      | (rename_i s' heq hlt
         have h5 := congrArg (fun p => p.1.iteration_summary.relative_decrease) heq
         simp at h5 ⊢
         exact h5.symm)
      | (rename_i s' heq
         have h5 := congrArg (fun p => p.1.iteration_summary.relative_decrease) heq
         simp at h5 ⊢
         exact h5.symm)

/-- The acceptance phase never touches the inner-iteration enable flag. -/
lemma acceptancePhase_inner_enabled (env : Env) (opts : Options) (nc : ℚ)
    (s : MinState) :
    (acceptancePhase env opts nc s).1.inner_iterations_are_enabled =
      s.inner_iterations_are_enabled := by
  unfold acceptancePhase
  dsimp only
  repeat' split
  all_goals try simp
  all_goals
    first
      | (rename_i s' heq hlt
         have h5 := congrArg (fun p => p.1.inner_iterations_are_enabled) heq
         simp at h5 ⊢
         exact h5.symm)
      | (rename_i s' heq
         have h5 := congrArg (fun p => p.1.inner_iterations_are_enabled) heq
         simp at h5 ⊢
         exact h5.symm)

/-! ### Claims -/

/-- C3: when the strategy solve succeeds, `ComputeTrustRegionStep`
returns normally with `model_cost_change = -(J·s)·(residual + (J·s)/2)`
for the proposed step `s`, and classifies the step as valid exactly when
this value is strictly positive; in particular a zero step gives a model
cost change of exactly `0` and is classified invalid, without aborting
the solve. -/
theorem claim_c3_model_cost_change (env : Env) (opts : Options) (s : MinState)
    (hterm : (env.strat s.stratEvents s.jacobian s.residuals).termination =
      LinTerm.success) :
    (computeTrustRegionStep env opts s).2 = true ∧
    (computeTrustRegionStep env opts s).1.model_cost_change =
      modelCostChange s.jacobian
        (env.strat s.stratEvents s.jacobian s.residuals).step s.residuals ∧
    ((computeTrustRegionStep env opts s).1.iteration_summary.step_is_valid = true ↔
      0 < (computeTrustRegionStep env opts s).1.model_cost_change) ∧
    (∀ n : ℕ,
      (env.strat s.stratEvents s.jacobian s.residuals).step = List.replicate n 0 →
      (computeTrustRegionStep env opts s).1.model_cost_change = 0 ∧
      (computeTrustRegionStep env opts s).1.iteration_summary.step_is_valid = false) := by
  simp [computeTrustRegionStep, readClock, hterm, modelCostChange]
  intro n hstep
  simp [hstep, matVec_replicate_zero, dot_replicate_zero_left]

/-- The spec's description of
`FinalizeIterationAndCheckIfMinimizerCanContinue`, as a decision on the
finalized values alone: first the callbacks (a requested stop is not an
error), then, in this fixed order, the wall-clock budget
(NO_CONVERGENCE), the iteration cap (NO_CONVERGENCE), the gradient
tolerance (CONVERGENCE, tested only on iteration 0 or after a successful
step), and the minimum trust-region radius (CONVERGENCE); `none` means
the loop continues. -/
def finalizeSpecDecision (opts : Options) (callbackContinue : Bool)
    (totalTime : ℚ) (summary : IterationSummary) : Option TerminationType :=
  if callbackContinue = false then some TerminationType.userSuccess
  else if opts.max_solver_time_in_seconds ≤ totalTime then
    some TerminationType.noConvergence
  else if opts.max_num_iterations ≤ summary.iteration then
    some TerminationType.noConvergence
  else if (summary.step_is_successful = true ∨ summary.iteration = 0) ∧
          summary.gradient_max_norm ≤ opts.gradient_tolerance then
    some TerminationType.convergence
  else if summary.trust_region_radius < opts.min_trust_region_radius then
    some TerminationType.convergence
  else none

@[simp] lemma finalizeBookkeeping_termination (env : Env) (s : MinState) :
    (finalizeBookkeeping env s).termination = s.termination := by
  simp [finalizeBookkeeping, readClock]

/-- C6: `FinalizeIterationAndCheckIfMinimizerCanContinue` refines the
spec's cascade: after the bookkeeping it consults the callbacks first (a
requested stop ends the loop with a non-error tag), and otherwise applies
the termination checks in the spec's fixed order on the recorded values;
when the cascade decides nothing the loop continues with the termination
tag untouched. -/
theorem claim_c6_finalize_order (env : Env) (opts : Options) (s : MinState) :
    (∀ t : TerminationType,
      finalizeSpecDecision opts
          (env.callback (finalizeBookkeeping env s).iterations)
          (env.clock (finalizeBookkeeping env s).ticks -
            (finalizeBookkeeping env s).start_time +
            env.preprocessor_time_in_seconds)
          (finalizeBookkeeping env s).iteration_summary = some t →
      (finalizeIteration env opts s).2 = false ∧
      (finalizeIteration env opts s).1.termination = t) ∧
    (finalizeSpecDecision opts
        (env.callback (finalizeBookkeeping env s).iterations)
        (env.clock (finalizeBookkeeping env s).ticks -
          (finalizeBookkeeping env s).start_time +
          env.preprocessor_time_in_seconds)
        (finalizeBookkeeping env s).iteration_summary = none →
      (finalizeIteration env opts s).2 = true ∧
      (finalizeIteration env opts s).1.termination = s.termination) := by
  simp only [finalizeIteration, finalizeSpecDecision, readClock]
  split_ifs <;> simp_all

/-! ### A concrete collaborator environment used by the witnesses: an
unconstrained one-parameter problem with residual `x - 5` and a
Gauss-Newton strategy. -/

def env1 : Env :=
  { plus := fun x d => some (vadd x d)
    evalFull := fun v => some { cost := (v.getD 0 0 - 5) ^ 2 / 2,
                                residuals := [v.getD 0 0 - 5],
                                gradient := [v.getD 0 0 - 5],
                                jacobian := [[1]] }
    evalCost := fun v => some ((v.getD 0 0 - 5) ^ 2 / 2)
    strat := fun _ _ r =>
      { termination := LinTerm.success, step := [-(r.getD 0 0)],
        num_iterations := 1 }
    radius := fun _ => 10
    seQuality := fun seed hist cand mcc =>
      ((hist.getLastD (seed, 0)).1 - cand) / mcc
    callback := fun _ => true
    clock := fun _ => 0
    innerPoint := fun v => v
    lineSearch := fun _ _ _ _ => none
    norm := fun v => (v.map (fun q => |q|)).sum
    sqrtQ := fun q => q
    fixed_cost := 0
    preprocessor_time_in_seconds := 0
    num_effective_parameters := 1 }

def opts1 : Options :=
  { max_num_iterations := 20
    max_solver_time_in_seconds := 1000
    gradient_tolerance := 1 / 10 ^ 10
    parameter_tolerance := 1 / 10 ^ 8
    function_tolerance := 1 / 10 ^ 6
    min_relative_decrease := 1 / 10 ^ 3
    min_trust_region_radius := 1 / 10 ^ 12
    max_num_consecutive_invalid_steps := 5
    inner_iteration_tolerance := 1 / 10 ^ 3
    eta := 1 / 10
    is_constrained := false
    jacobi_scaling := false
    inner_iterations_enabled := false
    use_nonmonotonic_steps := false }

def state1 : MinState := initState env1 opts1 [0]

theorem claim_c3_witness :
    (computeTrustRegionStep env1 opts1 state1).2 = true ∧
    (computeTrustRegionStep env1 opts1 state1).1.model_cost_change =
      modelCostChange state1.jacobian
        (env1.strat state1.stratEvents state1.jacobian state1.residuals).step
        state1.residuals :=
  ⟨(claim_c3_model_cost_change env1 opts1 state1 rfl).1,
   (claim_c3_model_cost_change env1 opts1 state1 rfl).2.1⟩

theorem claim_c6_witness :
    (finalizeIteration env1 opts1 state1).2 = false ∧
    (finalizeIteration env1 opts1 state1).1.termination =
      TerminationType.convergence :=
  (claim_c6_finalize_order env1 opts1 state1).1 TerminationType.convergence
    (by norm_num [finalizeSpecDecision, finalizeBookkeeping, readClock, env1, opts1,
      state1, initState, freshSummary])

/-- C5: on a valid-step iteration, before the acceptance decision and
regardless of how it would come out, the loop terminates with CONVERGENCE
as soon as the candidate step satisfies the parameter tolerance
(`step_norm ≤ parameter_tolerance * (x_norm + parameter_tolerance)`) or
the function tolerance (`|cost - new_cost| ≤ function_tolerance * cost`). -/
theorem claim_c5_candidate_tolerances (env : Env) (opts : Options) (s : MinState)
    (h : (trialPhase env opts s).2.iteration_summary.step_norm ≤
          stepSizeTolerance opts (trialPhase env opts s).2 ∨
        |(trialPhase env opts s).2.iteration_summary.cost_change| ≤
          opts.function_tolerance * (trialPhase env opts s).2.cost) :
    afterValidStep env opts s =
      ({ (trialPhase env opts s).2 with termination := TerminationType.convergence },
       false) := by
  unfold afterValidStep
  dsimp only
  rcases h with h | h
  · rw [if_pos h]
  · by_cases hp : (trialPhase env opts s).2.iteration_summary.step_norm ≤
        stepSizeTolerance opts (trialPhase env opts s).2
    · rw [if_pos hp]
    · rw [if_neg hp, if_pos h]

def opts5 : Options := { opts1 with parameter_tolerance := 2 }

def state5 : MinState := { state1 with trust_region_step := [1] }

theorem claim_c5_witness :
    afterValidStep env1 opts5 state5 =
      ({ (trialPhase env1 opts5 state5).2 with
          termination := TerminationType.convergence }, false) :=
  claim_c5_candidate_tolerances env1 opts5 state5
    (Or.inl (by norm_num [trialPhase, prepareDelta, evaluateTrialPoint,
      innerIterationPhase, doInnerIterations, stepSizeTolerance, env1, opts1, opts5,
      state5, state1, initState, vadd, vsub, hadamard, dot, linfNorm]))

/-- With inner iterations disabled on entry, the inner-iteration phase
leaves the enable flag off. -/
lemma innerIterationPhase_enabled_false (env : Env) (opts : Options) (nc : ℚ)
    (s : MinState) (h : s.inner_iterations_are_enabled = false) :
    (innerIterationPhase env opts nc s).2.inner_iterations_are_enabled = false := by
  unfold innerIterationPhase doInnerIterations
  dsimp only
  rw [if_neg (by simp [h])]
  exact h

lemma trialPhase_enabled_false (env : Env) (opts : Options) (s : MinState)
    (h : s.inner_iterations_are_enabled = false) :
    (trialPhase env opts s).2.inner_iterations_are_enabled = false := by
  unfold trialPhase
  dsimp only
  rw [innerIterationPhase_enabled_false]
  simp [h]

lemma afterValidStep_enabled_false (env : Env) (opts : Options) (s : MinState)
    (h : s.inner_iterations_are_enabled = false) :
    (afterValidStep env opts s).1.inner_iterations_are_enabled = false := by
  unfold afterValidStep
  dsimp only
  split_ifs
  · simpa using trialPhase_enabled_false env opts s h
  · simpa using trialPhase_enabled_false env opts s h
  · rw [acceptancePhase_inner_enabled]
    exact trialPhase_enabled_false env opts s h

lemma loopBody_enabled_false (env : Env) (opts : Options) (s : MinState)
    (h : s.inner_iterations_are_enabled = false) :
    (loopBody env opts s).1.inner_iterations_are_enabled = false := by
  unfold loopBody
  dsimp only
  split
  · rename_i s1 heq
    have h5 := congrArg (fun p => p.1.inner_iterations_are_enabled) heq
    simp at h5
    simp [← h5, h]
  · rename_i s1 heq
    have h5 := congrArg (fun p => p.1.inner_iterations_are_enabled) heq
    simp at h5
    split_ifs
    · exact afterValidStep_enabled_false env opts s1 (by simp [← h5, h])
    · simp [← h5, h]

lemma minLoop_enabled_false (env : Env) (opts : Options) (fuel : ℕ) (s : MinState)
    (h : s.inner_iterations_are_enabled = false) :
    (minLoop env opts fuel s).inner_iterations_are_enabled = false := by
  induction fuel generalizing s with
  | zero => simpa [minLoop] using h
  | succ n ih =>
    unfold minLoop
    split
    · rename_i s1 heq
      have h5 := congrArg (fun p => p.1.inner_iterations_are_enabled) heq
      simp at h5
      simp [← h5, h]
    · rename_i s1 heq
      have h5 := congrArg (fun p => p.1.inner_iterations_are_enabled) heq
      simp at h5
      split
      · rename_i s2 heq2
        have h6 := congrArg (fun p => p.1.inner_iterations_are_enabled) heq2
        have h7 := loopBody_enabled_false env opts s1 (by simp [← h5, h])
        rw [heq2] at h7
        simpa using h7
      · rename_i s2 heq2
        have h7 := loopBody_enabled_false env opts s1 (by simp [← h5, h])
        rw [heq2] at h7
        simp at h7
        exact ih s2 h7

/-- C10 (confirmed): whenever inner iterations produce a finite cost,
the `StepQuality` call that fixes the relative decrease for the
acceptance decision receives the inner-iteration cost as candidate and,
as model cost change, the linearized model cost change increased by the
inner-iteration improvement `new_cost - inner_cost`. -/
theorem claim_c10_step_quality_arguments (env : Env) (opts : Options)
    (s : MinState) (xpd : Vec) (nc ic : ℚ)
    (hplus : env.plus (prepareDelta env opts s).x (prepareDelta env opts s).delta =
      some xpd)
    (heval : env.evalCost xpd = some nc)
    (hnc : nc < DBL_MAX)
    (hen : s.inner_iterations_are_enabled = true)
    (hip : env.evalCost (env.innerPoint xpd) = some ic)
    (hic : ic < DBL_MAX)
    (hp : ¬ ((trialPhase env opts s).2.iteration_summary.step_norm ≤
          stepSizeTolerance opts (trialPhase env opts s).2))
    (hf : ¬ (|(trialPhase env opts s).2.iteration_summary.cost_change| ≤
          opts.function_tolerance * (trialPhase env opts s).2.cost)) :
    (afterValidStep env opts s).1.iteration_summary.relative_decrease =
      env.seQuality s.seSeed s.seHistory ic (s.model_cost_change + (nc - ic)) := by
  have h1 : (trialPhase env opts s).1 = ic := by
    simp only [trialPhase, evaluateTrialPoint, innerIterationPhase, doInnerIterations,
      hplus, heval, hip]
    simp [hnc, hic, hen]
  have h2 : (trialPhase env opts s).2.model_cost_change =
      s.model_cost_change + (nc - ic) := by
    simp only [trialPhase, evaluateTrialPoint, innerIterationPhase, doInnerIterations,
      hplus, heval, hip]
    simp [hnc, hic, hen]
  have h3 : (trialPhase env opts s).2.seSeed = s.seSeed := by simp
  have h4 : (trialPhase env opts s).2.seHistory = s.seHistory := by simp
  unfold afterValidStep
  dsimp only
  rw [if_neg hp, if_neg hf, acceptancePhase_relative_decrease, h1, h2, h3, h4]

def env10 : Env := { env1 with innerPoint := fun _ => [2] }

def state10 : MinState :=
  { state1 with cost := 25 / 2, trust_region_step := [1],
                inner_iterations_are_enabled := true, model_cost_change := 7 }

theorem claim_c10_witness :
    (afterValidStep env10 opts1 state10).1.iteration_summary.relative_decrease =
      env10.seQuality state10.seSeed state10.seHistory (9 / 2)
        (state10.model_cost_change + (8 - 9 / 2)) :=
  claim_c10_step_quality_arguments env10 opts1 state10 [1] 8 (9 / 2)
    (by norm_num [prepareDelta, doLineSearch, env10, env1, opts1, state10, state1,
      initState, hadamard, vadd])
    (by norm_num [env10, env1])
    (by norm_num [DBL_MAX])
    rfl
    (by norm_num [env10, env1])
    (by norm_num [DBL_MAX])
    (by norm_num [trialPhase, prepareDelta, evaluateTrialPoint, innerIterationPhase,
      doInnerIterations, doLineSearch, stepSizeTolerance, env10, env1, opts1, state10,
      state1, initState, hadamard, vadd, vsub, dot, DBL_MAX])
    (by norm_num [trialPhase, prepareDelta, evaluateTrialPoint, innerIterationPhase,
      doInnerIterations, doLineSearch, stepSizeTolerance, env10, env1, opts1, state10,
      state1, initState, hadamard, vadd, vsub, dot, DBL_MAX])

/-- C7 (amended): with inner iterations enabled and a finite trial cost,
the secondary minimizer runs from the trial point and — whenever the cost
evaluation at its result succeeds — its point and cost replace the trial
point and cost regardless of whether the cost is lower; the comparison
with the current cost only sets the usefulness flag, and the relative
progress only recomputes the enable flag.  Once the flag is off it stays
off for the rest of the run. -/
theorem claim_c7_inner_iterations (env : Env) (opts : Options) :
    (∀ (s : MinState) (xpd : Vec) (nc ic : ℚ),
      env.plus (prepareDelta env opts s).x (prepareDelta env opts s).delta =
        some xpd →
      env.evalCost xpd = some nc →
      nc < DBL_MAX →
      s.inner_iterations_are_enabled = true →
      env.evalCost (env.innerPoint xpd) = some ic →
      ic < DBL_MAX →
      (trialPhase env opts s).1 = ic ∧
      (trialPhase env opts s).2.x_plus_delta = env.innerPoint xpd ∧
      (trialPhase env opts s).2.inner_iterations_were_useful = decide (ic < s.cost) ∧
      (trialPhase env opts s).2.inner_iterations_are_enabled =
        decide (opts.inner_iteration_tolerance < 1 - ic / nc)) ∧
    (∀ (fuel : ℕ) (s : MinState), s.inner_iterations_are_enabled = false →
      (minLoop env opts fuel s).inner_iterations_are_enabled = false) := by
  constructor
  · intro s xpd nc ic hplus heval hnc hen hip hic
    refine ⟨?_, ?_, ?_, ?_⟩ <;>
      (simp only [trialPhase, evaluateTrialPoint, innerIterationPhase,
         doInnerIterations, hplus, heval, hip]
       simp [hnc, hic, hen])
  · intro fuel s h
    exact minLoop_enabled_false env opts fuel s h

def env7 : Env :=
  { env1 with innerPoint := fun _ => [2],
              evalCost := fun v => some (if v = [2] then 12 else 10) }

def state7 : MinState :=
  { state1 with trust_region_step := [1], inner_iterations_are_enabled := true }

/-- C7 counterexample to the claim as stated: an inner iteration whose
cost (12) is higher than the trial cost (10) still replaces the trial
cost and the trial point. -/
theorem claim_c7_counterexample :
    env7.evalCost [1] = some 10 ∧
    env7.evalCost [2] = some 12 ∧
    env7.innerPoint [1] = [2] ∧
    (10 : ℚ) < 12 ∧
    (trialPhase env7 opts1 state7).1 = 12 ∧
    (trialPhase env7 opts1 state7).2.x_plus_delta = [2] := by
  norm_num [trialPhase, prepareDelta, evaluateTrialPoint, innerIterationPhase,
    doInnerIterations, doLineSearch, env7, env1, opts1, state7, state1, initState,
    hadamard, vadd, vsub, dot, DBL_MAX]

theorem claim_c7_witness :
    (trialPhase env7 opts1 state7).1 = 12 ∧
    (minLoop env7 opts1 0 state1).inner_iterations_are_enabled = false :=
  ⟨((claim_c7_inner_iterations env7 opts1).1 state7 [1] 10 12
      (by norm_num [prepareDelta, doLineSearch, env7, env1, opts1, state7, state1,
        initState, hadamard, vadd])
      (by norm_num [env7, env1])
      (by norm_num [DBL_MAX])
      rfl
      (by norm_num [env7, env1])
      (by norm_num [DBL_MAX])).1,
   (claim_c7_inner_iterations env7 opts1).2 0 state1 rfl⟩

@[simp] lemma computeTRS_stratEvents (env : Env) (opts : Options) (s : MinState) :
    (computeTrustRegionStep env opts s).1.stratEvents =
      s.stratEvents ++ [StratEvent.computeStep] := by
  unfold computeTrustRegionStep readClock
  try dsimp only
  repeat' split
  all_goals rfl

/-- C9 (amended): an iteration whose valid step is rejected leaves the
optimization state unchanged — the iterate `x`, its norm, the stored
cost, gradient, residuals, Jacobian, scale, the caller-visible buffer and
the best-cost tracker are all as before — while the strategy is notified
`StepRejected`, the unsuccessful-step counter increments, and the
iteration summary records the failed step.  (The claim's "only these are
updated" does not hold verbatim: the consecutive-invalid counter is reset
by any valid step, see the counterexample.) -/
theorem claim_c9_rejected_step_frame (env : Env) (opts : Options) (s : MinState)
    (hc : (computeTrustRegionStep env opts (bodyEntry env s)).2 = true)
    (hv : (computeTrustRegionStep env opts (bodyEntry env s)).1.iteration_summary.step_is_valid = true)
    (hp : ¬ ((trialPhase env opts (computeTrustRegionStep env opts (bodyEntry env s)).1).2.iteration_summary.step_norm ≤
        stepSizeTolerance opts (trialPhase env opts (computeTrustRegionStep env opts (bodyEntry env s)).1).2))
    (hf : ¬ (|(trialPhase env opts (computeTrustRegionStep env opts (bodyEntry env s)).1).2.iteration_summary.cost_change| ≤
        opts.function_tolerance * (trialPhase env opts (computeTrustRegionStep env opts (bodyEntry env s)).1).2.cost))
    (hflag : (trialPhase env opts (computeTrustRegionStep env opts (bodyEntry env s)).1).2.inner_iterations_were_useful = false)
    (hrd : env.seQuality s.seSeed s.seHistory
        (trialPhase env opts (computeTrustRegionStep env opts (bodyEntry env s)).1).1
        (trialPhase env opts (computeTrustRegionStep env opts (bodyEntry env s)).1).2.model_cost_change ≤
      opts.min_relative_decrease) :
    (loopBody env opts s).2 = true ∧
    (loopBody env opts s).1.x = s.x ∧
    (loopBody env opts s).1.x_norm = s.x_norm ∧
    (loopBody env opts s).1.cost = s.cost ∧
    (loopBody env opts s).1.gradient = s.gradient ∧
    (loopBody env opts s).1.residuals = s.residuals ∧
    (loopBody env opts s).1.jacobian = s.jacobian ∧
    (loopBody env opts s).1.scale = s.scale ∧
    (loopBody env opts s).1.parameters = s.parameters ∧
    (loopBody env opts s).1.minimum_cost = s.minimum_cost ∧
    (loopBody env opts s).1.acceptedLog = s.acceptedLog ∧
    (loopBody env opts s).1.num_successful_steps = s.num_successful_steps ∧
    (loopBody env opts s).1.num_unsuccessful_steps = s.num_unsuccessful_steps + 1 ∧
    (loopBody env opts s).1.iteration_summary.step_is_successful = false ∧
    (loopBody env opts s).1.stratEvents =
      s.stratEvents ++ [StratEvent.computeStep,
        StratEvent.rejected (env.seQuality s.seSeed s.seHistory
          (trialPhase env opts (computeTrustRegionStep env opts (bodyEntry env s)).1).1
          (trialPhase env opts (computeTrustRegionStep env opts (bodyEntry env s)).1).2.model_cost_change)] := by
  have hsc : computeTrustRegionStep env opts (bodyEntry env s) =
      ((computeTrustRegionStep env opts (bodyEntry env s)).1, true) := by
    rw [← hc]
  unfold loopBody
  dsimp only
  rw [hsc]
  dsimp only
  rw [if_pos hv]
  unfold afterValidStep
  dsimp only
  rw [if_neg hp, if_neg hf]
  unfold acceptancePhase
  dsimp only
  simp only [trialPhase_seSeed, trialPhase_seHistory, computeTRS_seSeed,
    computeTRS_seHistory, bodyEntry_seSeed, bodyEntry_seHistory, hflag,
    Bool.false_or]
  rw [decide_eq_false (not_lt.mpr hrd)]
  simp

@[simp] lemma linterm_success_ne_fatal :
    (LinTerm.success = LinTerm.fatalError) = False := by simp

@[simp] lemma linterm_success_ne_failure :
    (LinTerm.success = LinTerm.solverFailure) = False := by simp

def env9 : Env := { env1 with seQuality := fun _ _ _ _ => 0 }

def state9 : MinState :=
  { state1 with cost := 25 / 2, residuals := [-5], jacobian := [[1]],
                gradient := [-5] }

def state9c : MinState := { state9 with num_consecutive_invalid_steps := 1 }

set_option maxHeartbeats 8000000 in
/-- C9 counterexample to the claim as stated: a valid-but-rejected step
resets the consecutive-invalid counter from 1 to 0, so more than the
strategy notification, the unsuccessful-step counter and the iteration
summary is updated. -/
theorem claim_c9_counterexample :
    (loopBody env9 opts1 state9c).2 = true ∧
    (loopBody env9 opts1 state9c).1.iteration_summary.step_is_valid = true ∧
    (loopBody env9 opts1 state9c).1.iteration_summary.step_is_successful = false ∧
    state9c.num_consecutive_invalid_steps = 1 ∧
    (loopBody env9 opts1 state9c).1.num_consecutive_invalid_steps = 0 := by
  have hfneg : ¬(|(25:ℚ) / 2| ≤ 1 / 80000) := by norm_num [abs_le]
  norm_num [hfneg, loopBody, bodyEntry, computeTrustRegionStep, afterValidStep, trialPhase,
    prepareDelta, evaluateTrialPoint, innerIterationPhase, doInnerIterations,
    doLineSearch, acceptancePhase, handleInvalidStep, evaluateGradientAndJacobian,
    stepSizeTolerance, readClock, freshSummary, env9, env1, opts1, state9c, state9,
    state1, initState, hadamard, vadd, vsub, negV, smul, dot, matVec, linfNorm,
    numCols, colSquaredNorms, scaleColumns, DBL_MAX, linterm_success_ne_fatal,
    linterm_success_ne_failure]


theorem claim_c9_witness :
    (loopBody env9 opts1 state9).2 = true ∧
    (loopBody env9 opts1 state9).1.x = state9.x ∧
    (loopBody env9 opts1 state9).1.x_norm = state9.x_norm ∧
    (loopBody env9 opts1 state9).1.cost = state9.cost ∧
    (loopBody env9 opts1 state9).1.gradient = state9.gradient ∧
    (loopBody env9 opts1 state9).1.residuals = state9.residuals ∧
    (loopBody env9 opts1 state9).1.jacobian = state9.jacobian ∧
    (loopBody env9 opts1 state9).1.scale = state9.scale ∧
    (loopBody env9 opts1 state9).1.parameters = state9.parameters ∧
    (loopBody env9 opts1 state9).1.minimum_cost = state9.minimum_cost ∧
    (loopBody env9 opts1 state9).1.acceptedLog = state9.acceptedLog ∧
    (loopBody env9 opts1 state9).1.num_successful_steps = state9.num_successful_steps ∧
    (loopBody env9 opts1 state9).1.num_unsuccessful_steps = state9.num_unsuccessful_steps + 1 ∧
    (loopBody env9 opts1 state9).1.iteration_summary.step_is_successful = false ∧
    (loopBody env9 opts1 state9).1.stratEvents =
      state9.stratEvents ++ [StratEvent.computeStep,
        StratEvent.rejected (env9.seQuality state9.seSeed state9.seHistory
          (trialPhase env9 opts1 (computeTrustRegionStep env9 opts1 (bodyEntry env9 state9)).1).1
          (trialPhase env9 opts1 (computeTrustRegionStep env9 opts1 (bodyEntry env9 state9)).1).2.model_cost_change)] :=
  claim_c9_rejected_step_frame env9 opts1 state9
    (by norm_num [computeTrustRegionStep, bodyEntry, readClock, freshSummary, env9,
      env1, opts1, state9, state1, initState, dot, matVec, vadd, smul,
      linterm_success_ne_fatal, linterm_success_ne_failure])
    (by norm_num [computeTrustRegionStep, bodyEntry, readClock, freshSummary, env9,
      env1, opts1, state9, state1, initState, dot, matVec, vadd, smul,
      linterm_success_ne_fatal, linterm_success_ne_failure])
    (by norm_num [trialPhase, prepareDelta, evaluateTrialPoint, innerIterationPhase,
      doInnerIterations, doLineSearch, computeTrustRegionStep, bodyEntry, readClock,
      freshSummary, stepSizeTolerance, env9, env1, opts1, state9, state1, initState,
      hadamard, vadd, vsub, negV, smul, dot, matVec, DBL_MAX,
      linterm_success_ne_fatal, linterm_success_ne_failure])
    (by have hfneg : ¬(|(25:ℚ) / 2| ≤ 1 / 80000) := by norm_num [abs_le]
        norm_num [hfneg, trialPhase, prepareDelta, evaluateTrialPoint,
          innerIterationPhase, doInnerIterations, doLineSearch, computeTrustRegionStep,
          bodyEntry, readClock, freshSummary, stepSizeTolerance, env9, env1, opts1,
          state9, state1, initState, hadamard, vadd, vsub, negV, smul, dot, matVec,
          DBL_MAX, linterm_success_ne_fatal, linterm_success_ne_failure])
    (by norm_num [trialPhase, prepareDelta, evaluateTrialPoint, innerIterationPhase,
      doInnerIterations, doLineSearch, computeTrustRegionStep, bodyEntry, readClock,
      freshSummary, env9, env1, opts1, state9, state1, initState, hadamard, vadd,
      vsub, negV, smul, dot, matVec, DBL_MAX, linterm_success_ne_fatal,
      linterm_success_ne_failure])
    (by norm_num [env9, env1, opts1])

/-- C4 (amended): when the evaluator fails on the trial point (failed
retraction or failed cost evaluation), the trial is treated as a step
with cost `DBL_MAX`; provided the pre-acceptance tolerance checks do not
fire on the (possibly stale) `x_plus_delta`, no stale usefulness flag is
set, and the step evaluator grades a `DBL_MAX` candidate at or below
`min_relative_decrease`, the step is rejected, `x` does not advance, the
failure is not fatal, and the loop continues. -/
theorem claim_c4_trial_failure (env : Env) (opts : Options) (s : MinState)
    (hfail : env.plus (prepareDelta env opts s).x (prepareDelta env opts s).delta =
        none ∨
      (∃ xpd, env.plus (prepareDelta env opts s).x (prepareDelta env opts s).delta =
          some xpd ∧ env.evalCost xpd = none))
    (hp : ¬ ((trialPhase env opts s).2.iteration_summary.step_norm ≤
          stepSizeTolerance opts (trialPhase env opts s).2))
    (hf : ¬ (|(trialPhase env opts s).2.iteration_summary.cost_change| ≤
          opts.function_tolerance * (trialPhase env opts s).2.cost))
    (hflag : s.inner_iterations_were_useful = false)
    (hrd : env.seQuality s.seSeed s.seHistory DBL_MAX s.model_cost_change ≤
      opts.min_relative_decrease) :
    (evaluateTrialPoint env (prepareDelta env opts s)).1 = DBL_MAX ∧
    (afterValidStep env opts s).2 = true ∧
    (afterValidStep env opts s).1.x = s.x ∧
    (afterValidStep env opts s).1.x_norm = s.x_norm ∧
    (afterValidStep env opts s).1.cost = s.cost ∧
    (afterValidStep env opts s).1.termination = s.termination ∧
    (afterValidStep env opts s).1.iteration_summary.step_is_successful = false ∧
    (afterValidStep env opts s).1.num_unsuccessful_steps =
      s.num_unsuccessful_steps + 1 := by
  have hnc : (evaluateTrialPoint env (prepareDelta env opts s)).1 = DBL_MAX := by
    rcases hfail with h | ⟨xpd, h1, h2⟩
    · unfold evaluateTrialPoint
      rw [h]
    · unfold evaluateTrialPoint
      rw [h1]
      dsimp only
      rw [h2]
  have htp : (trialPhase env opts s).1 = DBL_MAX ∧
      (trialPhase env opts s).2.model_cost_change = s.model_cost_change ∧
      (trialPhase env opts s).2.inner_iterations_were_useful = false := by
    unfold trialPhase
    dsimp only
    rw [hnc]
    unfold innerIterationPhase
    dsimp only
    rw [if_neg (by simp)]
    simp [hnc, hflag]
  refine ⟨hnc, ?_⟩
  unfold afterValidStep
  dsimp only
  rw [if_neg hp, if_neg hf]
  unfold acceptancePhase
  dsimp only
  simp only [htp.1, htp.2.1, htp.2.2, trialPhase_seSeed, trialPhase_seHistory,
    Bool.false_or]
  rw [decide_eq_false (not_lt.mpr hrd)]
  simp

def envC4 : Env :=
  { env1 with
      plus := fun x d => if d = [-1] then none else some (vadd x d),
      evalFull := fun _ => some { cost := 1, residuals := [2], gradient := [3],
                                  jacobian := [[1]] },
      strat := fun _ _ _ =>
        { termination := LinTerm.success, step := [-1], num_iterations := 0 } }

def optsC4 : Options := { opts1 with is_constrained := true }

set_option maxHeartbeats 8000000 in
/-- C4 counterexample to the claim as stated: a constrained solve whose
first trial retraction fails (`trialFailures = 1`) terminates right there
with CONVERGENCE — the stale `x_plus_delta` equals `x`, so the
parameter-tolerance check fires — instead of continuing the loop. -/
theorem claim_c4_counterexample :
    (minimize envC4 optsC4 [0]).termination = TerminationType.convergence ∧
    (minimize envC4 optsC4 [0]).trialFailures = 1 ∧
    (minimize envC4 optsC4 [0]).iterations.length = 1 ∧
    (minimize envC4 optsC4 [0]).iteration_summary.iteration = 1 ∧
    (minimize envC4 optsC4 [0]).iteration_summary.step_is_valid = true ∧
    (minimize envC4 optsC4 [0]).x = [0] := by
  norm_num [minimize, minimizeEntry, loopEntry, minLoop, loopBody, bodyEntry, computeTrustRegionStep,
    afterValidStep, trialPhase, prepareDelta, evaluateTrialPoint,
    innerIterationPhase, doInnerIterations, doLineSearch, acceptancePhase,
    handleInvalidStep, evaluateGradientAndJacobian, iterationZero, iterationZeroEval, initState,
    finalizeIteration, finalizeBookkeeping, stepSizeTolerance, readClock,
    freshSummary, envC4, env1, opts1, optsC4, hadamard, vadd, vsub, negV, smul,
    dot, matVec, linfNorm, numCols, colSquaredNorms, scaleColumns, DBL_MAX,
    linterm_success_ne_fatal, linterm_success_ne_failure]

def envW4 : Env :=
  { env1 with plus := fun x d => if d = [5] then none else some (vadd x d) }

def stateW4 : MinState :=
  { state1 with cost := 25 / 2, residuals := [-5], jacobian := [[1]],
                gradient := [-5], trust_region_step := [5], x_plus_delta := [3] }

theorem claim_c4_witness :
    (evaluateTrialPoint envW4 (prepareDelta envW4 opts1 stateW4)).1 = DBL_MAX ∧
    (afterValidStep envW4 opts1 stateW4).2 = true ∧
    (afterValidStep envW4 opts1 stateW4).1.x = stateW4.x ∧
    (afterValidStep envW4 opts1 stateW4).1.x_norm = stateW4.x_norm ∧
    (afterValidStep envW4 opts1 stateW4).1.cost = stateW4.cost ∧
    (afterValidStep envW4 opts1 stateW4).1.termination = stateW4.termination ∧
    (afterValidStep envW4 opts1 stateW4).1.iteration_summary.step_is_successful =
      false ∧
    (afterValidStep envW4 opts1 stateW4).1.num_unsuccessful_steps =
      stateW4.num_unsuccessful_steps + 1 :=
  claim_c4_trial_failure envW4 opts1 stateW4
    (Or.inl (by norm_num [prepareDelta, doLineSearch, envW4, env1, opts1, stateW4,
      state1, initState, hadamard]))
    (by norm_num [trialPhase, prepareDelta, evaluateTrialPoint, innerIterationPhase,
      doInnerIterations, doLineSearch, stepSizeTolerance, envW4, env1, opts1,
      stateW4, state1, initState, hadamard, vadd, vsub, dot, DBL_MAX])
    (by norm_num [abs_le, trialPhase, prepareDelta, evaluateTrialPoint,
          innerIterationPhase, doInnerIterations, doLineSearch, stepSizeTolerance,
          envW4, env1, opts1, stateW4, state1, initState, hadamard, vadd, vsub, dot,
          DBL_MAX])
    rfl
    (by norm_num [envW4, env1, opts1, stateW4, state1, initState])

lemma colSquaredNorms_length (J : Mat) :
    (colSquaredNorms J).length = numCols J := by
  simp [colSquaredNorms]

theorem claim_c8_jacobi_scaling (env : Env) (opts : Options) (s : MinState) (e : EvalOut)
    (hj : opts.jacobi_scaling = true)
    (he : env.evalFull s.x = some e)
    (hcols : numCols e.jacobian = env.num_effective_parameters)
    (hscale : s.scale = List.replicate env.num_effective_parameters 1)
    (hsqrt : ∀ q : ℚ, 0 ≤ env.sqrtQ q) :
    (s.iteration_summary.iteration = 0 →
      (evaluateGradientAndJacobian env opts s).1.scale =
        (colSquaredNorms e.jacobian).map (fun q => 1 / (1 + env.sqrtQ q)) ∧
      (evaluateGradientAndJacobian env opts s).1.scale.length =
        env.num_effective_parameters ∧
      (∀ q ∈ (evaluateGradientAndJacobian env opts s).1.scale, 0 < q) ∧
      (evaluateGradientAndJacobian env opts s).1.jacobian =
        scaleColumns e.jacobian (evaluateGradientAndJacobian env opts s).1.scale) ∧
    (s.iteration_summary.iteration ≠ 0 →
      (evaluateGradientAndJacobian env opts s).1.scale = s.scale ∧
      (evaluateGradientAndJacobian env opts s).1.jacobian =
        scaleColumns e.jacobian s.scale) ∧
    (∀ s' : MinState, (bodyEntry env s').iteration_summary.iteration ≠ 0) ∧
    (opts.is_constrained = false →
      (prepareDelta env opts s).delta = hadamard s.trust_region_step s.scale) := by
  have hsc0 : s.iteration_summary.iteration = 0 →
      (evaluateGradientAndJacobian env opts s).1.scale =
        (colSquaredNorms e.jacobian).map (fun q => 1 / (1 + env.sqrtQ q)) := by
    intro h0
    simp only [evaluateGradientAndJacobian, he]
    simp only [hj, h0, if_true, eq_self_iff_true, hcols, hscale]
    split <;> simp [List.drop_replicate]
  have hscn : s.iteration_summary.iteration ≠ 0 →
      (evaluateGradientAndJacobian env opts s).1.scale = s.scale := by
    intro h0
    simp only [evaluateGradientAndJacobian, he]
    rw [if_pos hj, if_neg (by simpa using h0)]
    split <;> simp
  have hjac : (evaluateGradientAndJacobian env opts s).1.jacobian =
      scaleColumns e.jacobian (evaluateGradientAndJacobian env opts s).1.scale := by
    by_cases h0 : s.iteration_summary.iteration = 0
    · rw [hsc0 h0]
      simp only [evaluateGradientAndJacobian, he]
      simp only [hj, h0, if_true, eq_self_iff_true, hcols, hscale]
      split <;> simp [List.drop_replicate]
    · rw [hscn h0]
      simp only [evaluateGradientAndJacobian, he]
      rw [if_pos hj, if_neg (by simpa using h0)]
      split <;> simp
  refine ⟨fun h0 => ⟨hsc0 h0, ?_, ?_, hjac⟩, fun h0 => ⟨hscn h0, by rw [← hscn h0]; exact hjac⟩, ?_, ?_⟩
  · rw [hsc0 h0]
    simp [colSquaredNorms_length, hcols]
  · intro q hq
    rw [hsc0 h0] at hq
    simp only [List.mem_map] at hq
    obtain ⟨a, _, rfl⟩ := hq
    have := hsqrt a
    positivity
  · intro s'
    simp [bodyEntry, readClock]
  · intro hcon
    simp [prepareDelta, hcon]

def envW8 : Env := { env1 with sqrtQ := fun q => |q| }

def opts8 : Options := { opts1 with jacobi_scaling := true }

def eval8 : EvalOut :=
  { cost := 25 / 2, residuals := [-5], gradient := [-5], jacobian := [[1]] }

theorem claim_c8_witness :
    (evaluateGradientAndJacobian envW8 opts8 state1).1.scale =
      (colSquaredNorms eval8.jacobian).map (fun q => 1 / (1 + envW8.sqrtQ q)) ∧
    (evaluateGradientAndJacobian envW8 opts8 state1).1.scale.length =
      envW8.num_effective_parameters ∧
    (prepareDelta envW8 opts8 state1).delta =
      hadamard state1.trust_region_step state1.scale := by
  have T := claim_c8_jacobi_scaling envW8 opts8 state1 eval8 rfl
    (by norm_num [envW8, env1, state1, initState, eval8])
    (by norm_num [numCols, eval8, envW8, env1, opts1])
    rfl
    (fun q => abs_nonneg q)
  exact ⟨(T.1 rfl).1, (T.1 rfl).2.1, T.2.2.2 rfl⟩

/-- The best-iterate contract: the caller-visible buffer together with
`minimum_cost` names one of the observed iterates (the projected initial
point or an accepted iterate), and its cost is a lower bound on every
observed cost. -/
def bestInv (s : MinState) : Prop :=
  (∀ p ∈ s.acceptedLog, s.minimum_cost ≤ p.2) ∧
  (s.parameters, s.minimum_cost) ∈ s.acceptedLog

@[simp] lemma iterationZeroEval_acceptedLog (env : Env) (opts : Options)
    (s : MinState) :
    (iterationZeroEval env opts s).1.acceptedLog = s.acceptedLog := by
  unfold iterationZeroEval
  split
  · rename_i s' heq
    have h3 := congrArg (fun p => p.1.acceptedLog) heq
    simp at h3
    simpa using h3.symm
  · rename_i s' heq
    have h3 := congrArg (fun p => p.1.acceptedLog) heq
    simp at h3
    simpa using h3.symm

@[simp] lemma iterationZero_acceptedLog (env : Env) (opts : Options) (s : MinState) :
    (iterationZero env opts s).1.acceptedLog = s.acceptedLog := by
  unfold iterationZero
  try dsimp only
  repeat' split
  all_goals simp

lemma bestInv_acceptancePhase (env : Env) (opts : Options) (nc : ℚ) (s : MinState)
    (h : bestInv s) : bestInv (acceptancePhase env opts nc s).1 := by
  unfold acceptancePhase
  dsimp only
  split
  · split
    · rename_i s' heq
      have h1 := congrArg (fun p => p.1.parameters) heq
      have h2 := congrArg (fun p => p.1.minimum_cost) heq
      have h3 := congrArg (fun p => p.1.acceptedLog) heq
      simp at h1 h2 h3
      unfold bestInv at h ⊢
      rw [← h1, ← h2, ← h3]
      exact h
    · rename_i s' heq
      have h1 := congrArg (fun p => p.1.parameters) heq
      have h2 := congrArg (fun p => p.1.minimum_cost) heq
      have h3 := congrArg (fun p => p.1.acceptedLog) heq
      simp at h1 h2 h3
      split
      · rename_i hlt
        unfold bestInv
        dsimp only
        constructor
        · intro p hp
          simp only [List.mem_append, List.mem_singleton] at hp
          rcases hp with hp | hp
          · have hb := h.1 p (h3 ▸ hp)
            have : s'.minimum_cost = s.minimum_cost := h2.symm
            calc s'.cost ≤ s'.minimum_cost := le_of_lt hlt
              _ = s.minimum_cost := this
              _ ≤ p.2 := hb
          · rw [hp]
        · simp
      · rename_i hlt
        unfold bestInv
        dsimp only
        constructor
        · intro p hp
          simp only [List.mem_append, List.mem_singleton] at hp
          rcases hp with hp | hp
          · rw [← h2]
            exact h.1 p (h3 ▸ hp)
          · rw [hp]
            exact le_of_not_lt hlt
        · rw [← h1, ← h2, ← h3]
          exact List.mem_append_left _ h.2
  · unfold bestInv at h ⊢
    simpa using h

lemma bestInv_afterValidStep (env : Env) (opts : Options) (s : MinState)
    (h : bestInv s) : bestInv (afterValidStep env opts s).1 := by
  unfold afterValidStep
  dsimp only
  split_ifs
  · unfold bestInv at h ⊢
    simpa using h
  · unfold bestInv at h ⊢
    simpa using h
  · apply bestInv_acceptancePhase
    unfold bestInv at h ⊢
    simpa using h

lemma bestInv_loopBody (env : Env) (opts : Options) (s : MinState)
    (h : bestInv s) : bestInv (loopBody env opts s).1 := by
  unfold loopBody
  dsimp only
  split
  · rename_i s' heq
    have h1 := congrArg (fun p => p.1.parameters) heq
    have h2 := congrArg (fun p => p.1.minimum_cost) heq
    have h3 := congrArg (fun p => p.1.acceptedLog) heq
    simp at h1 h2 h3
    unfold bestInv at h ⊢
    rw [← h1, ← h2, ← h3]
    exact h
  · rename_i s' heq
    have h1 := congrArg (fun p => p.1.parameters) heq
    have h2 := congrArg (fun p => p.1.minimum_cost) heq
    have h3 := congrArg (fun p => p.1.acceptedLog) heq
    simp at h1 h2 h3
    have hs' : bestInv s' := by
      unfold bestInv at h ⊢
      rw [← h1, ← h2, ← h3]
      exact h
    split_ifs
    · exact bestInv_afterValidStep env opts s' hs'
    · unfold bestInv at hs' ⊢
      simpa using hs'

lemma bestInv_finalize (env : Env) (opts : Options) (s : MinState)
    (h : bestInv s) : bestInv (finalizeIteration env opts s).1 := by
  unfold bestInv at h ⊢
  simpa using h

lemma bestInv_minLoop (env : Env) (opts : Options) (fuel : ℕ) (s : MinState)
    (h : bestInv s) : bestInv (minLoop env opts fuel s) := by
  induction fuel generalizing s with
  | zero => simpa [minLoop] using h
  | succ n ih =>
    unfold minLoop
    split
    · rename_i s1 heq
      have := bestInv_finalize env opts s h
      rw [heq] at this
      exact this
    · rename_i s1 heq
      have hs1 : bestInv s1 := by
        have := bestInv_finalize env opts s h
        rw [heq] at this
        exact this
      split
      · rename_i s2 heq2
        have := bestInv_loopBody env opts s1 hs1
        rw [heq2] at this
        exact this
      · rename_i s2 heq2
        apply ih
        have := bestInv_loopBody env opts s1 hs1
        rw [heq2] at this
        exact this

/-- C1: on return from a solve, the caller-visible parameter buffer holds
the best-ever iterate: among the (projected) initial point and all
accepted iterates, one whose observed cost is a lower bound on every
observed cost (so never merely the last accepted iterate when an earlier
one was better).  The degenerate disjunct covers a solve that fails
before any cost is observed. -/
theorem claim_c1_best_iterate (env : Env) (opts : Options) (x0 : Vec) :
    (minimize env opts x0).acceptedLog = [] ∨
    bestInv (minimize env opts x0) := by
  unfold minimize
  split
  · rename_i s1 heq
    left
    have h3 := congrArg (fun p => p.1.acceptedLog) heq
    simp [minimizeEntry, readClock, initState] at h3
    exact h3
  · rename_i s1 heq
    right
    apply bestInv_minLoop
    unfold bestInv loopEntry
    simp

def envW1 : Env := { env1 with callback := fun _ => false }

theorem claim_c1_witness :
    ((minimize envW1 opts1 [0]).parameters,
      (minimize envW1 opts1 [0]).minimum_cost) ∈
      (minimize envW1 opts1 [0]).acceptedLog :=
  ((claim_c1_best_iterate envW1 opts1 [0]).resolve_left
    (by norm_num [minimize, minimizeEntry, loopEntry, minLoop, finalizeIteration, finalizeBookkeeping,
      iterationZero, iterationZeroEval, evaluateGradientAndJacobian, initState,
      readClock, freshSummary, envW1, env1, opts1, vadd, vsub, negV, dot, linfNorm,
      numCols, colSquaredNorms, scaleColumns])).2

@[simp] lemma bodyEntry_summary (env : Env) (s : MinState) :
    (bodyEntry env s).iteration_summary =
      { freshSummary with iteration :=
          (s.iterations.getLastD freshSummary).iteration + 1 } := by
  unfold bodyEntry readClock
  rfl

@[simp] lemma finalizeBk_summary_radius (env : Env) (s : MinState) :
    (finalizeBookkeeping env s).iteration_summary.trust_region_radius =
      env.radius s.stratEvents := by
  unfold finalizeBookkeeping readClock
  rfl

@[simp] lemma computeTRS_start_time (env : Env) (opts : Options) (s : MinState) :
    ((computeTrustRegionStep env opts s).1).start_time = s.start_time := by
  unfold computeTrustRegionStep readClock
  try dsimp only
  repeat' split
  all_goals rfl

@[simp] lemma bodyEntry2_start_time (env : Env) (s : MinState) :
    (bodyEntry env s).start_time = s.start_time := by
  unfold bodyEntry readClock
  try dsimp only
  repeat' split
  all_goals rfl

@[simp] lemma handleInvalid2_start_time (env : Env) (opts : Options) (s : MinState) :
    ((handleInvalidStep env opts s).1).start_time = s.start_time := by
  unfold handleInvalidStep
  try dsimp only
  repeat' split
  all_goals rfl

lemma c2_computeTRS (env : Env) (opts : Options) (s : MinState)
    (h1 : (env.strat s.stratEvents s.jacobian s.residuals).termination =
      LinTerm.success)
    (h2 : modelCostChange s.jacobian
      (env.strat s.stratEvents s.jacobian s.residuals).step s.residuals ≤ 0) :
    (computeTrustRegionStep env opts s).2 = true ∧
    (computeTrustRegionStep env opts s).1.iteration_summary.step_is_valid =
      false := by
  simp only [computeTrustRegionStep, readClock, h1, modelCostChange] at h2 ⊢
  simp only [linterm_success_ne_fatal, linterm_success_ne_failure, if_false]
  exact ⟨trivial, decide_eq_false (not_lt.mpr h2)⟩

lemma c2_body_shared (env : Env) (opts : Options) (s : MinState)
    (hstrat : ∀ evs J r, (env.strat evs J r).termination = LinTerm.success ∧
      modelCostChange J (env.strat evs J r).step r ≤ 0) :
    loopBody env opts s =
      handleInvalidStep env opts
        (computeTrustRegionStep env opts (bodyEntry env s)).1 := by
  have hTRS := c2_computeTRS env opts (bodyEntry env s)
    (hstrat _ _ _).1
    (by simpa using (hstrat (bodyEntry env s).stratEvents (bodyEntry env s).jacobian
      (bodyEntry env s).residuals).2)
  have key : computeTrustRegionStep env opts (bodyEntry env s) =
      ((computeTrustRegionStep env opts (bodyEntry env s)).1, true) := by
    rw [← hTRS.1]
  unfold loopBody
  dsimp only
  rw [key]
  dsimp only
  rw [if_neg (by simp [hTRS.2])]

lemma c2_body_fatal (env : Env) (opts : Options) (s : MinState)
    (hstrat : ∀ evs J r, (env.strat evs J r).termination = LinTerm.success ∧
      modelCostChange J (env.strat evs J r).step r ≤ 0)
    (hge : opts.max_num_consecutive_invalid_steps ≤
      s.num_consecutive_invalid_steps + 1) :
    (loopBody env opts s).2 = false ∧
    (loopBody env opts s).1.termination = TerminationType.failure ∧
    (loopBody env opts s).1.iteration_summary.iteration =
      (s.iterations.getLastD freshSummary).iteration + 1 ∧
    (loopBody env opts s).1.iterations = s.iterations := by
  rw [c2_body_shared env opts s hstrat]
  unfold handleInvalidStep
  dsimp only
  rw [if_pos (by simpa using hge)]
  simp

lemma c2_body_continue (env : Env) (opts : Options) (s : MinState)
    (hstrat : ∀ evs J r, (env.strat evs J r).termination = LinTerm.success ∧
      modelCostChange J (env.strat evs J r).step r ≤ 0)
    (hlt : s.num_consecutive_invalid_steps + 1 <
      opts.max_num_consecutive_invalid_steps) :
    (loopBody env opts s).2 = true ∧
    (loopBody env opts s).1.num_consecutive_invalid_steps =
      s.num_consecutive_invalid_steps + 1 ∧
    (loopBody env opts s).1.iteration_summary.iteration =
      (s.iterations.getLastD freshSummary).iteration + 1 ∧
    (loopBody env opts s).1.iteration_summary.step_is_successful = false ∧
    (loopBody env opts s).1.iterations = s.iterations ∧
    (loopBody env opts s).1.start_time = s.start_time := by
  rw [c2_body_shared env opts s hstrat]
  unfold handleInvalidStep
  dsimp only
  rw [if_neg (by simp; omega)]
  simp [freshSummary]

@[simp] lemma finalizeBk_start_time (env : Env) (s : MinState) :
    (finalizeBookkeeping env s).start_time = s.start_time := by
  unfold finalizeBookkeeping readClock
  rfl

lemma c2_finalize (env : Env) (opts : Options) (s : MinState) (k : ℕ)
    (hcb : ∀ l, env.callback l = true)
    (htime : ∀ n, env.clock n - env.clock 0 + env.preprocessor_time_in_seconds <
      opts.max_solver_time_in_seconds)
    (hrad : ∀ evs, opts.min_trust_region_radius ≤ env.radius evs)
    (hst : s.start_time = env.clock 0)
    (hiter : s.iteration_summary.iteration = k)
    (hsucc : s.iteration_summary.step_is_successful = false)
    (hg0 : k = 0 → opts.gradient_tolerance < s.iteration_summary.gradient_max_norm)
    (hk : k < opts.max_num_iterations) :
    finalizeIteration env opts s =
      ({ finalizeBookkeeping env s with
          ticks := (finalizeBookkeeping env s).ticks + 1 }, true) := by
  unfold finalizeIteration readClock
  dsimp only
  rw [if_neg (by simp [hcb])]
  rw [if_neg (by simp only [finalizeBk_start_time, hst]; exact not_le.mpr (htime _))]
  rw [if_neg (by simp only [finalizeBk_summary_iteration, hiter]; exact not_le.mpr hk)]
  rw [if_neg ?hgrad]
  rw [if_neg (by simp only [finalizeBk_summary_radius]; exact not_lt.mpr (hrad _))]
  case hgrad =>
    simp only [finalizeBk_summary_iteration, finalizeBk_summary_step_is_successful,
      finalizeBk_summary_gradient_max_norm, hiter, hsucc]
    rcases Nat.eq_zero_or_pos k with hk0 | hk0
    · intro hcontra
      exact absurd hcontra.2 (not_le.mpr (hg0 hk0))
    · intro hcontra
      rcases hcontra.1 with hb | hb
      · exact Bool.false_ne_true hb
      · omega

@[simp] lemma finalizeBk_iterations_length (env : Env) (s : MinState) :
    (finalizeBookkeeping env s).iterations.length = s.iterations.length + 1 := by
  unfold finalizeBookkeeping readClock
  simp

@[simp] lemma finalizeBk_last_iteration (env : Env) (s : MinState) :
    ((finalizeBookkeeping env s).iterations.getLastD freshSummary).iteration =
      s.iteration_summary.iteration := by
  unfold finalizeBookkeeping readClock
  simp [List.getLastD_concat]

@[simp] lemma finalizeBk_last_iteration' (env : Env) (s : MinState) :
    (((finalizeBookkeeping env s).iterations.getLast?).getD freshSummary).iteration =
      s.iteration_summary.iteration := by
  have h := finalizeBk_last_iteration env s
  rw [List.getLastD_eq_getLast?] at h
  exact h

/-- The loop-condition invariant of an all-invalid run: `k` loop bodies
have run, each recording one invalid step. -/
def c2Inv (env : Env) (opts : Options) (k : ℕ) (s : MinState) : Prop :=
  s.start_time = env.clock 0 ∧
  s.iteration_summary.iteration = k ∧
  s.iteration_summary.step_is_successful = false ∧
  (k = 0 → opts.gradient_tolerance < s.iteration_summary.gradient_max_norm) ∧
  s.num_consecutive_invalid_steps = k ∧
  s.iterations.length = k ∧
  (s.iterations.getLastD freshSummary).iteration = k - 1

lemma c2_run (env : Env) (opts : Options)
    (hstrat : ∀ evs J r, (env.strat evs J r).termination = LinTerm.success ∧
      modelCostChange J (env.strat evs J r).step r ≤ 0)
    (hcb : ∀ l, env.callback l = true)
    (htime : ∀ n, env.clock n - env.clock 0 + env.preprocessor_time_in_seconds <
      opts.max_solver_time_in_seconds)
    (hrad : ∀ evs, opts.min_trust_region_radius ≤ env.radius evs)
    (hMN : opts.max_num_consecutive_invalid_steps ≤ opts.max_num_iterations) :
    ∀ (m k fuel : ℕ) (s : MinState),
      k + m = opts.max_num_consecutive_invalid_steps → 1 ≤ m → m ≤ fuel →
      c2Inv env opts k s →
      (minLoop env opts fuel s).termination = TerminationType.failure ∧
      (minLoop env opts fuel s).iteration_summary.iteration =
        opts.max_num_consecutive_invalid_steps ∧
      (minLoop env opts fuel s).iterations.length =
        opts.max_num_consecutive_invalid_steps := by
  intro m
  induction m with
  | zero => intro k fuel s _ h1; omega
  | succ m' ih =>
    intro k fuel s hkm _ hfuel hinv
    obtain ⟨f, rfl⟩ : ∃ f, fuel = f + 1 := ⟨fuel - 1, by omega⟩
    obtain ⟨hst, hiter, hsucc, hg0, hcnt, hlen, hlast⟩ := hinv
    have e1 : ({ finalizeBookkeeping env s with
        ticks := (finalizeBookkeeping env s).ticks + 1 } :
        MinState).num_consecutive_invalid_steps = k := by simp [hcnt]
    have e2 : ({ finalizeBookkeeping env s with
        ticks := (finalizeBookkeeping env s).ticks + 1 } :
        MinState).iterations.length = k + 1 := by simp [hlen]
    have e3 : (({ finalizeBookkeeping env s with
        ticks := (finalizeBookkeeping env s).ticks + 1 } :
        MinState).iterations.getLastD freshSummary).iteration = k := by
      simp [hiter]
    have e4 : ({ finalizeBookkeeping env s with
        ticks := (finalizeBookkeeping env s).ticks + 1 } :
        MinState).start_time = env.clock 0 := by simp [hst]
    unfold minLoop
    rw [c2_finalize env opts s k hcb htime hrad hst hiter hsucc hg0 (by omega)]
    dsimp only
    by_cases hm0 : m' = 0
    · have hb := c2_body_fatal env opts
        { finalizeBookkeeping env s with
            ticks := (finalizeBookkeeping env s).ticks + 1 } hstrat
        (by rw [e1]; omega)
      have hkey : loopBody env opts
          { finalizeBookkeeping env s with
              ticks := (finalizeBookkeeping env s).ticks + 1 } =
          ((loopBody env opts
            { finalizeBookkeeping env s with
                ticks := (finalizeBookkeeping env s).ticks + 1 }).1, false) := by
        rw [← hb.1]
      rw [hkey]
      dsimp only
      refine ⟨hb.2.1, ?_, ?_⟩
      · rw [hb.2.2.1, e3]
        omega
      · rw [hb.2.2.2, e2]
        omega
    · have hb := c2_body_continue env opts
        { finalizeBookkeeping env s with
            ticks := (finalizeBookkeeping env s).ticks + 1 } hstrat
        (by rw [e1]; omega)
      have hkey : loopBody env opts
          { finalizeBookkeeping env s with
              ticks := (finalizeBookkeeping env s).ticks + 1 } =
          ((loopBody env opts
            { finalizeBookkeeping env s with
                ticks := (finalizeBookkeeping env s).ticks + 1 }).1, true) := by
        rw [← hb.1]
      rw [hkey]
      dsimp only
      apply ih (k + 1) f _ (by omega) (by omega) (by omega)
      refine ⟨?_, ?_, ?_, ?_, ?_, ?_, ?_⟩
      · rw [hb.2.2.2.2.2, e4]
      · rw [hb.2.2.1, e3]
      · exact hb.2.2.2.1
      · omega
      · rw [hb.2.1, e1]
      · rw [hb.2.2.2.2.1, e2]
      · rw [hb.2.2.2.2.1, e3]
        omega

lemma iterationZero_unconstrained (env : Env) (opts : Options) (s : MinState)
    (e : EvalOut) (pgs : Vec)
    (hcon : opts.is_constrained = false)
    (he : env.evalFull s.x = some e)
    (hp : env.plus s.x (negV e.gradient) = some pgs) :
    (iterationZero env opts s).2 = true ∧
    (iterationZero env opts s).1.iteration_summary.iteration = 0 ∧
    (iterationZero env opts s).1.iteration_summary.step_is_successful = false ∧
    (iterationZero env opts s).1.iteration_summary.gradient_max_norm =
      linfNorm (vsub s.x pgs) ∧
    (iterationZero env opts s).1.num_consecutive_invalid_steps =
      s.num_consecutive_invalid_steps ∧
    (iterationZero env opts s).1.iterations = s.iterations ∧
    (iterationZero env opts s).1.start_time = s.start_time := by
  simp only [iterationZero, iterationZeroEval, evaluateGradientAndJacobian, hcon,
    Bool.false_eq_true, if_false, he, ite_true]
  by_cases hjac : opts.jacobi_scaling = true
  · simp only [hjac, if_true]
    try dsimp only
    rw [hp]
    try dsimp only
    simp [freshSummary]
  · rw [if_neg hjac]
    try dsimp only
    rw [hp]
    try dsimp only
    simp [freshSummary]

/-- C2: with a strategy whose every step has non-positive model cost
change (and no other stopping rule interfering), the solve terminates
with FAILURE after exactly `max_num_consecutive_invalid_steps + 1`
iterations: iteration indices 0 through
`max_num_consecutive_invalid_steps` are begun, the summaries of the first
`max_num_consecutive_invalid_steps` of them are recorded, and the fatal
iteration carries index `max_num_consecutive_invalid_steps`.  Alongside:
reaching `max_num_consecutive_invalid_steps` consecutive invalid steps is
fatal, and the consecutive-invalid counter resets to zero on any valid
step (`prepareDelta`, entered exactly when the step is valid). -/
theorem claim_c2_consecutive_invalid_steps (env : Env) (opts : Options)
    (x0 : Vec) (e0 : EvalOut) (pgs0 : Vec)
    (hstrat : ∀ evs J r, (env.strat evs J r).termination = LinTerm.success ∧
      modelCostChange J (env.strat evs J r).step r ≤ 0)
    (hcb : ∀ l, env.callback l = true)
    (htime : ∀ n, env.clock n - env.clock 0 + env.preprocessor_time_in_seconds <
      opts.max_solver_time_in_seconds)
    (hrad : ∀ evs, opts.min_trust_region_radius ≤ env.radius evs)
    (hN : 1 ≤ opts.max_num_consecutive_invalid_steps)
    (hMN : opts.max_num_consecutive_invalid_steps ≤ opts.max_num_iterations)
    (hcon : opts.is_constrained = false)
    (heval : env.evalFull x0 = some e0)
    (hplus : env.plus x0 (negV e0.gradient) = some pgs0)
    (hg : opts.gradient_tolerance < linfNorm (vsub x0 pgs0)) :
    ((minimize env opts x0).termination = TerminationType.failure ∧
     (minimize env opts x0).iteration_summary.iteration =
       opts.max_num_consecutive_invalid_steps ∧
     (minimize env opts x0).iterations.length =
       opts.max_num_consecutive_invalid_steps) ∧
    (∀ s : MinState, (prepareDelta env opts s).num_consecutive_invalid_steps = 0) := by
  have hEx : (minimizeEntry env opts x0).x = x0 := by
    simp [minimizeEntry, readClock, initState]
  have hIZ := iterationZero_unconstrained env opts (minimizeEntry env opts x0)
    e0 pgs0 hcon (by rw [hEx]; exact heval) (by rw [hEx]; exact hplus)
  constructor
  · unfold minimize
    split
    · rename_i s1 heq
      rw [heq] at hIZ
      simp at hIZ
    · rename_i s1 heq
      rw [heq] at hIZ
      simp only at hIZ
      have hloop := c2_run env opts hstrat hcb htime hrad hMN
        opts.max_num_consecutive_invalid_steps 0 (opts.max_num_iterations + 2)
        (loopEntry env opts s1) (by omega) hN (by omega) ?_
      · exact hloop
      · refine ⟨?_, ?_, ?_, ?_, ?_, ?_, ?_⟩
        · have : s1.start_time = (minimizeEntry env opts x0).start_time := hIZ.2.2.2.2.2.2
          simp only [loopEntry]
          rw [this]
          simp [minimizeEntry, readClock, initState]
        · simp only [loopEntry]
          exact hIZ.2.1
        · simp only [loopEntry]
          exact hIZ.2.2.1
        · intro _
          simp only [loopEntry]
          rw [hIZ.2.2.2.1, hEx]
          exact hg
        · simp only [loopEntry]
          rw [hIZ.2.2.2.2.1]
          simp [minimizeEntry, readClock, initState]
        · simp only [loopEntry]
          rw [hIZ.2.2.2.2.2.1]
          simp [minimizeEntry, readClock, initState]
        · simp only [loopEntry]
          rw [hIZ.2.2.2.2.2.1]
          simp [minimizeEntry, readClock, initState, freshSummary]
  · intro s
    unfold prepareDelta doLineSearch
    try dsimp only
    repeat' split
    all_goals rfl

def envC2 : Env :=
  { env1 with strat := fun _ _ _ =>
      { termination := LinTerm.success, step := [0], num_iterations := 0 } }

theorem claim_c2_witness :
    (minimize envC2 opts1 [0]).termination = TerminationType.failure ∧
    (minimize envC2 opts1 [0]).iteration_summary.iteration = 5 ∧
    (minimize envC2 opts1 [0]).iterations.length = 5 := by
  have T := claim_c2_consecutive_invalid_steps envC2 opts1 [0] eval8 [5]
    (fun evs J r => ⟨rfl, le_of_eq (modelCostChange_zero_step J r 1)⟩)
    (fun l => rfl)
    (fun n => by norm_num [envC2, env1, opts1])
    (fun evs => by norm_num [envC2, env1, opts1])
    (by norm_num [opts1])
    (by norm_num [opts1])
    rfl
    (by norm_num [envC2, env1, eval8])
    (by norm_num [envC2, env1, eval8, negV, vadd])
    (by norm_num [opts1, vsub, linfNorm])
  exact ⟨T.1.1, T.1.2.1, T.1.2.2⟩

end CeresTR
